import Mathlib

/-!
Verification of the zentity liveness / OCR core against its specification.

The definitions below are shallow embeddings of the Python sources:

- `Liveness.*` : src/apps/liveness/app/challenge_engine.py,
  src/apps/liveness/app/blink_detection.py, src/apps/liveness/app/head_pose.py
- `Ocr.*` : src/apps/ocr/src/ocr_service/services/document_detector.py,
  src/apps/ocr/src/ocr_service/services/validators.py
- `OcrApp.*` : src/apps/ocr/app/document_detector.py, src/apps/ocr/app/validators.py

Machine floats are modelled as rationals, Python lists as `List`, fallible
calls (Python exceptions) as `Option`/explicit outcome types, and the
outcomes of `random.choice` / `random.sample` / `random.shuffle` as explicit
oracle arguments constrained by the support of those distributions.
Wall-clock fields (`created_at`, `completed_at`, `processing_time_ms`) and
purely cosmetic output fields are omitted: no claim refers to them.
-/

namespace Liveness

/-- Challenge types, from `challenge_engine.ChallengeType` (a `str` enum). -/
inductive ChallengeType where
  | smile
  | blink
  | turn_left
  | turn_right
deriving DecidableEq, Repr

/-- The head-turn pair `[ChallengeType.TURN_LEFT, ChallengeType.TURN_RIGHT]`
used by `_generate_challenges`. -/
def headTurns : List ChallengeType := [.turn_left, .turn_right]

/-- `self.num_challenges = max(2, min(4, num_challenges))`
(`ChallengeSession.__init__`). -/
def clampNum (num_challenges : Int) : Nat := (max 2 (min 4 num_challenges)).toNat

/-- The `.value` of each enum member (its string payload). -/
def ChallengeType.value : ChallengeType → String
  | .smile => "smile"
  | .blink => "blink"
  | .turn_left => "turn_left"
  | .turn_right => "turn_right"

/-- `list(ChallengeType)`: enum declaration order. -/
def allChallengeTypes : List ChallengeType :=
  [.smile, .blink, .turn_left, .turn_right]

/-- The `available` pool right before challenges are drawn: all types minus
the excluded ones, reset to the full set when exclusion leaves fewer than
`num` options (`_generate_challenges` lines 98-107). -/
def availableAfter (num : Nat) (exclude : List ChallengeType) : List ChallengeType :=
  if (allChallengeTypes.filter (fun c => decide (c ∉ exclude))).length < num then
    allChallengeTypes
  else
    allChallengeTypes.filter (fun c => decide (c ∉ exclude))

/-- `ChallengeSession._generate_challenges` (lines 92-129), with the outcomes
of the `random` calls passed in explicitly: `pickIdx` selects the forced head
turn among the eligible candidates (the support of `random.choice` is every
index of the candidate list), `sampleFn l k` stands for the outcome of
`random.sample(l, k)`, and `shuffleFn` for the permutation produced by
`random.shuffle`.  `random.choice` applied to an empty candidate list raises
`IndexError`, rendered as `none`. -/
def generateChallenges (num_challenges : Int) (exclude : List ChallengeType)
    (require_head_turn : Bool) (pickIdx : Nat)
    (sampleFn : List ChallengeType → Nat → List ChallengeType)
    (shuffleFn : List ChallengeType → List ChallengeType) :
    Option (List ChallengeType) :=
  let num := clampNum num_challenges
  let available := availableAfter num exclude
  if require_head_turn then
    let candidates := headTurns.filter (fun h => decide (h ∈ available))
    match candidates.get? (pickIdx % candidates.length) with
    | none => none
    | some head_turn =>
      let available2 := available.filter (fun c => decide (c ≠ head_turn))
      let remaining := num - 1
      let selected :=
        if 0 < remaining then sampleFn available2 (min remaining available2.length) else []
      some (shuffleFn (head_turn :: selected))
  else
    let selected := if 0 < num then sampleFn available (min num available.length) else []
    some (shuffleFn selected)

/-- Mutable state of `challenge_engine.ChallengeSession`.  `session_id` and
`created_at` are omitted (opaque token and wall clock); a completed-challenge
log entry keeps the `challenge_type` string and the `passed` flag
(`completed_at` and `metadata` omitted). -/
structure Session where
  challenges : List ChallengeType
  current_index : Nat
  completed_challenges : List (String × Bool)
  is_complete : Bool
  is_passed : Bool
deriving DecidableEq, Repr

/-- A fresh session holding a generated challenge list
(`ChallengeSession.__init__`, after `_generate_challenges` returned). -/
def mkSession (cs : List ChallengeType) : Session :=
  { challenges := cs
    current_index := 0
    completed_challenges := []
    is_complete := false
    is_passed := false }

/-- The parts of the dict returned by `complete_challenge` that the spec
talks about. -/
structure CompleteOutcome where
  success : Bool
  error : Option String
deriving DecidableEq, Repr

/-- `ChallengeSession.complete_challenge` (challenge_engine.py lines 149-197).
The Python guard `current_index >= len(challenges)` is rendered as
`challenges.get? current_index = none`. -/
def Session.complete_challenge (s : Session) (challenge_type : String) (passed : Bool) :
    Session × CompleteOutcome :=
  match s.challenges.get? s.current_index with
  | none =>
      (s, { success := false, error := some "Session already complete" })
  | some expected =>
      if challenge_type ≠ expected.value then
        (s, { success := false
              error := some ("Expected challenge " ++ expected.value ++ ", got " ++ challenge_type) })
      else
        let completed := s.completed_challenges ++ [(challenge_type, passed)]
        let idx := s.current_index + 1
        if s.challenges.length ≤ idx then
          ({ challenges := s.challenges
             current_index := idx
             completed_challenges := completed
             is_complete := true
             is_passed := completed.all (fun c => c.2) },
           { success := true, error := none })
        else
          ({ s with current_index := idx, completed_challenges := completed },
           { success := true, error := none })

/-- Run a fresh session through a list of `complete_challenge` calls. -/
def runSession (cs : List ChallengeType) (calls : List (String × Bool)) : Session :=
  calls.foldl (fun s c => (s.complete_challenge c.1 c.2).1) (mkSession cs)

/-- Invariant tying a session's bookkeeping fields together. -/
def SessionInv (cs : List ChallengeType) (s : Session) : Prop :=
  s.challenges = cs ∧
  s.current_index = s.completed_challenges.length ∧
  s.current_index ≤ cs.length ∧
  (s.is_complete = true ↔ (cs.length ≤ s.current_index ∧ cs ≠ [])) ∧
  (s.is_complete = true → s.is_passed = s.completed_challenges.all (fun c => c.2)) ∧
  (s.is_complete = false → s.is_passed = false)

/-- `EAR_BLINK_THRESHOLD = 0.21` (blink_detection.py line 30): at or below
this the eye counts as closed (`eyes_open = avg_ear > EAR_BLINK_THRESHOLD`). -/
def EAR_BLINK_THRESHOLD : ℚ := 21/100

/-- `CONSECUTIVE_FRAMES_FOR_BLINK = 2` (blink_detection.py line 32). -/
def CONSECUTIVE_FRAMES_FOR_BLINK : Nat := 2

/-- Mutable state of `BlinkDetector`.  `previous_ear` is omitted: it is
written on every face frame but never read. -/
structure BlinkState where
  blink_count : Nat
  eye_closed_frames : Nat
  was_eye_closed : Bool
deriving DecidableEq, Repr

/-- `BlinkDetector.__init__` state; `BlinkDetector.reset` (lines 99-104)
restores exactly this state. -/
def initBlinkState : BlinkState :=
  { blink_count := 0, eye_closed_frames := 0, was_eye_closed := false }

/-- `BlinkDetector.reset`: zero every counter and flag. -/
def blinkReset (_ : BlinkState) : BlinkState :=
  { blink_count := 0, eye_closed_frames := 0, was_eye_closed := false }

/-- The fields of the `process_frame` result dict that the claims mention. -/
structure BlinkOutput where
  blink_detected : Bool
  blink_count : Nat
  face_detected : Bool
deriving DecidableEq, Repr

/-- The blink state machine inside `BlinkDetector.process_frame`
(blink_detection.py lines 188-222), applied to the average EAR of a detected
face.  `eyes_open` is `EAR_BLINK_THRESHOLD < avg_ear`, exactly the source's
`avg_ear > EAR_BLINK_THRESHOLD`. -/
def blinkProcessEar (s : BlinkState) (avg_ear : ℚ) : BlinkState × BlinkOutput :=
  if EAR_BLINK_THRESHOLD < avg_ear then
    if s.was_eye_closed then
      ({ blink_count := s.blink_count + 1, eye_closed_frames := 0, was_eye_closed := false },
       { blink_detected := true, blink_count := s.blink_count + 1, face_detected := true })
    else
      ({ s with eye_closed_frames := 0 },
       { blink_detected := false, blink_count := s.blink_count, face_detected := true })
  else
    ({ s with
        eye_closed_frames := s.eye_closed_frames + 1
        was_eye_closed := s.was_eye_closed ||
          decide (CONSECUTIVE_FRAMES_FOR_BLINK ≤ s.eye_closed_frames + 1) },
     { blink_detected := false, blink_count := s.blink_count, face_detected := true })

/-- One `process_frame` call; `none` stands for a frame where face/landmark
detection failed (the early-return branch: a state no-op reporting the
current count), `some e` for a face frame with average EAR `e`. -/
def blinkProcessFrame (s : BlinkState) (frame : Option ℚ) : BlinkState × BlinkOutput :=
  match frame with
  | none =>
      (s, { blink_detected := false, blink_count := s.blink_count, face_detected := false })
  | some e => blinkProcessEar s e

/-- Feed a list of face-frame EAR values through the detector, collecting the
final state and the per-frame `blink_detected` flags. -/
def blinkRun (s : BlinkState) : List ℚ → BlinkState × List Bool
  | [] => (s, [])
  | e :: es =>
    let step := blinkProcessEar s e
    let rest := blinkRun step.1 es
    (rest.1, step.2.blink_detected :: rest.2)

/-- A frame whose EAR the state machine treats as closed
(the negation of the source's `eyes_open`). -/
def closedFrame (e : ℚ) : Bool := !decide (EAR_BLINK_THRESHOLD < e)

/-- Length of the run of closed frames at the end of a sequence. -/
def trailingClosed (es : List ℚ) : Nat := (es.reverse.takeWhile closedFrame).length

/-- `YAW_THRESHOLD = 0.10` (head_pose.py line 27). -/
def YAW_THRESHOLD : ℚ := 10/100

/-- `YAW_STRONG_THRESHOLD = 0.25` (head_pose.py line 28; never read by the
tracking logic). -/
def YAW_STRONG_THRESHOLD : ℚ := 25/100

/-- `CONSECUTIVE_FRAMES_FOR_TURN = 2` (head_pose.py line 29). -/
def CONSECUTIVE_FRAMES_FOR_TURN : Nat := 2

/-- Mutable state of `HeadPoseDetector` (`__init__` lines 122-132; `reset`
lines 134-140 restores exactly the initial state). -/
structure HeadPoseState where
  left_turn_frames : Nat
  right_turn_frames : Nat
  previous_yaw : ℚ
  turn_detected_left : Bool
  turn_detected_right : Bool
deriving DecidableEq, Repr

/-- Initial (and reset) `HeadPoseDetector` state. -/
def initHeadPoseState : HeadPoseState :=
  { left_turn_frames := 0, right_turn_frames := 0, previous_yaw := 0
    turn_detected_left := false, turn_detected_right := false }

/-- The fields of the dict returned by `HeadPoseDetector.process_frame` that
the claims mention (`pitch` and `processing_time_ms` omitted; the reported
yaw is kept unrounded — the source rounds it to 3 decimals for display). -/
structure HeadPoseOutput where
  yaw : ℚ
  direction : String
  is_turning_left : Bool
  is_turning_right : Bool
  left_turn_completed : Bool
  right_turn_completed : Bool
  face_detected : Bool
deriving DecidableEq, Repr

/-- `HeadPoseDetector.process_frame` (head_pose.py lines 204-250) once the
landmark geometry has produced the yaw/pitch pair of the detected face. -/
def headProcessPose (s : HeadPoseState) (yaw pitch : ℚ) : HeadPoseState × HeadPoseOutput :=
  let direction :=
    if YAW_THRESHOLD < |yaw| then (if 0 < yaw then "left" else "right")
    else if (2:ℚ)/10 < |pitch| then (if 0 < pitch then "up" else "down")
    else "forward"
  let is_turning_left := decide (YAW_THRESHOLD < yaw)
  let is_turning_right := decide (yaw < -YAW_THRESHOLD)
  let left_frames := if is_turning_left then s.left_turn_frames + 1 else 0
  let right_frames :=
    if is_turning_left then 0
    else if is_turning_right then s.right_turn_frames + 1
    else 0
  let detected_left :=
    s.turn_detected_left || decide (CONSECUTIVE_FRAMES_FOR_TURN ≤ left_frames)
  let detected_right :=
    s.turn_detected_right || decide (CONSECUTIVE_FRAMES_FOR_TURN ≤ right_frames)
  ({ left_turn_frames := left_frames, right_turn_frames := right_frames
     previous_yaw := yaw
     turn_detected_left := detected_left, turn_detected_right := detected_right },
   { yaw := yaw, direction := direction
     is_turning_left := is_turning_left, is_turning_right := is_turning_right
     left_turn_completed := detected_left, right_turn_completed := detected_right
     face_detected := true })

/-- One `process_frame` call; `none` models a frame where face/landmark
detection failed (early-return branch, lines 191-202, also the exception
branch): counters and confirmed flags are untouched. -/
def headProcessFrame (s : HeadPoseState) (frame : Option (ℚ × ℚ)) :
    HeadPoseState × HeadPoseOutput :=
  match frame with
  | none =>
      (s, { yaw := 0, direction := "unknown"
            is_turning_left := false, is_turning_right := false
            left_turn_completed := s.turn_detected_left
            right_turn_completed := s.turn_detected_right
            face_detected := false })
  | some yp => headProcessPose s yp.1 yp.2

/-- Feed a frame sequence through the detector, keeping the final state and
the per-frame outputs. -/
def headRun (s : HeadPoseState) : List (Option (ℚ × ℚ)) → HeadPoseState × List HeadPoseOutput
  | [] => (s, [])
  | f :: fs =>
    let step := headProcessFrame s f
    let rest := headRun step.1 fs
    (rest.1, step.2 :: rest.2)

/-- The yaw values of the frames on which a face was detected. -/
def faceYaws (fs : List (Option (ℚ × ℚ))) : List ℚ :=
  (fs.filterMap (fun f => f)).map (fun yp => yp.1)

/-- Instantaneous left-turn classification of a yaw value
(`yaw > YAW_THRESHOLD`). -/
def leftYaw (y : ℚ) : Bool := decide (YAW_THRESHOLD < y)

/-- Instantaneous right-turn classification of a yaw value
(`yaw < -YAW_THRESHOLD`). -/
def rightYaw (y : ℚ) : Bool := decide (y < -YAW_THRESHOLD)

/-- Two adjacent entries satisfying `p`, somewhere in the list. -/
def hasAdjPair (p : ℚ → Bool) : List ℚ → Bool
  | a :: b :: rest => (p a && p b) || hasAdjPair p (b :: rest)
  | _ => false

/-- Streak-tracking reformulation of `hasAdjPair`, mirroring the
consecutive-frame counter, used to relate the two. -/
def confirmFrom (p : ℚ → Bool) (streak : Nat) : List ℚ → Bool
  | [] => false
  | y :: ys =>
    decide (2 ≤ (if p y then streak + 1 else 0)) ||
      confirmFrom p (if p y then streak + 1 else 0) ys

/-- The per-entry head-turn check of `validate_multi_challenge_batch`
(challenge_engine.py lines 355-364): `direction` is derived from the
challenge type, then direction "left" requires `yaw < -0.15` and direction
"right" requires `yaw > 0.15`. -/
def batchTurnPassed (challenge_type : ChallengeType) (yaw : ℚ) : Bool :=
  let direction := if challenge_type = ChallengeType.turn_left then "left" else "right"
  if direction = "left" then decide (yaw < -(15/100 : ℚ)) else decide ((15/100 : ℚ) < yaw)

/-- The turn check of `head_pose.detect_head_turn` (head_pose.py lines
353-362), implementing the camera-mirrored sign convention documented there:
positive yaw = user turned left, so a required "left" passes when
`yaw > threshold` and a required "right" when `yaw < -threshold`. -/
def detectHeadTurnCheck (required_direction : String) (yaw threshold : ℚ) : Bool :=
  if required_direction = "left" then decide (threshold < yaw)
  else if required_direction = "right" then decide (yaw < -threshold)
  else false

end Liveness

namespace Re

/-- One regex item: a character class with a repetition range (`none` means
unbounded).  A sequence of items is enough to express every marker pattern
appearing in the two document detectors. -/
structure RItem where
  cls : Char → Bool
  lo : Nat
  hi : Option Nat

/-- Decrement a repetition upper bound. -/
def decBound : Option Nat → Option Nat
  | none => none
  | some 0 => some 0
  | some (n+1) => some n

/-- Fuelled backtracking matcher: does some prefix of `s` match the item
sequence?  The fuel only needs to cover `items.length + s.length` steps; it
keeps the recursion structural so that concrete matches evaluate in the
kernel. -/
def matchHereF : Nat → List RItem → List Char → Bool
  | 0, _, _ => false
  | _+1, [], _ => true
  | f+1, ⟨_, 0, some 0⟩ :: rest, s => matchHereF f rest s
  | f+1, ⟨_, 0, _⟩ :: rest, [] => matchHereF f rest []
  | f+1, ⟨p, 0, hi⟩ :: rest, c :: s =>
      matchHereF f rest (c :: s) || (p c && matchHereF f (⟨p, 0, decBound hi⟩ :: rest) s)
  | _+1, ⟨_, _+1, _⟩ :: _, [] => false
  | f+1, ⟨p, lo+1, hi⟩ :: rest, c :: s =>
      p c && matchHereF f (⟨p, lo, decBound hi⟩ :: rest) s

/-- Match at the current position, with enough fuel. -/
def matchHere (pat : List RItem) (s : List Char) : Bool :=
  matchHereF (pat.length + s.length + 1) pat s

/-- Python `re.search`: match at some position of the string. -/
def rsearch (pat : List RItem) : List Char → Bool
  | [] => matchHere pat []
  | c :: s => matchHere pat (c :: s) || rsearch pat s

/-- Python `\s` (the whitespace characters). -/
def isSpace (c : Char) : Bool :=
  c = ' ' || c = '\t' || c = '\n' || c = '\r' || c = '\x0b' || c = '\x0c'

/-- ASCII digit class (`\d`). -/
def isDigit (c : Char) : Bool := '0' ≤ c && c ≤ '9'

/-- `[A-Z]`. -/
def isUpperAlpha (c : Char) : Bool := 'A' ≤ c && c ≤ 'Z'

/-- `[-\s]`. -/
def isDashOrSpace (c : Char) : Bool := c = '-' || isSpace c

/-- `.` (any character except a newline). -/
def anyChar (c : Char) : Bool := !(c = '\n')

/-- A literal character. -/
def lit (c : Char) : RItem := ⟨fun d => d = c, 1, some 1⟩

/-- A literal string. -/
def lits (s : String) : List RItem := s.toList.map lit

/-- `\s+`. -/
def ws1 : RItem := ⟨isSpace, 1, none⟩

/-- `\s*`. -/
def ws0 : RItem := ⟨isSpace, 0, none⟩

/-- An optional single character of a class (`?`). -/
def opt (p : Char → Bool) : RItem := ⟨p, 0, some 1⟩

/-- Exactly `n` characters of a class (`{n}`). -/
def cls (p : Char → Bool) (n : Nat) : RItem := ⟨p, n, some n⟩

/-- `.*`. -/
def star : RItem := ⟨anyChar, 0, none⟩

/-- Python `str.upper()` restricted to the characters relevant here: ASCII
case mapping plus the accented letters that occur in the marker patterns. -/
def pyUpperChar (c : Char) : Char :=
  if c = 'é' then 'É'
  else if c = 'í' then 'Í'
  else if c = 'ü' then 'Ü'
  else if c = 'ó' then 'Ó'
  else if c = 'á' then 'Á'
  else c.toUpper

/-- `text.upper()` on a character list. -/
def pyUpper (s : List Char) : List Char := s.map pyUpperChar

/-- Number of patterns in a list that fire somewhere on the text
(the per-type score of the marker loop). -/
def countMatches (pats : List (List RItem)) (s : List Char) : Nat :=
  (pats.filter (fun p => rsearch p s)).length

end Re

namespace Ocr

/-- `DocumentType` (services/document_detector.py lines 12-16). -/
inductive DocumentType where
  | PASSPORT
  | NATIONAL_ID
  | DRIVERS_LICENSE
  | UNKNOWN
deriving DecidableEq, Repr

/-- `DOCUMENT_MARKERS[NATIONAL_ID]` (lines 21-37), in order. -/
def nationalIdPatterns : List (List Re.RItem) :=
  [ Re.lits "NATIONAL" ++ [Re.ws1] ++ Re.lits "ID"
  , Re.lits "IDENTITY" ++ [Re.ws1] ++ Re.lits "CARD"
  , Re.lits "ID" ++ [Re.ws1] ++ Re.lits "CARD"
  , Re.lits "CÉDULA" ++ [Re.ws1] ++ Re.lits "DE" ++ [Re.ws1] ++ Re.lits "IDENTIDAD"
  , Re.lits "CEDULA" ++ [Re.ws1] ++ Re.lits "DE" ++ [Re.ws1] ++ Re.lits "IDENTIDAD"
  , Re.lits "DOCUMENTO" ++ [Re.ws1] ++ Re.lits "NACIONAL"
  , Re.lits "DNI"
  , Re.lits "JUNTA" ++ [Re.ws1] ++ Re.lits "CENTRAL" ++ [Re.ws1] ++ Re.lits "ELECTORAL"
  , Re.lits "JCE"
  , [Re.cls Re.isDigit 3, Re.opt Re.isDashOrSpace, Re.cls Re.isDigit 7,
     Re.opt Re.isDashOrSpace, Re.cls Re.isDigit 1]
  , [Re.cls Re.isDigit 8, Re.cls Re.isUpperAlpha 1] ]

/-- `DOCUMENT_MARKERS[PASSPORT]` (lines 38-45), in order. -/
def passportPatterns : List (List Re.RItem) :=
  [ Re.lits "PASAPORTE"
  , Re.lits "PASSPORT"
  , Re.lits "REISEPASS"
  , Re.lits "PASSEPORT"
  , [Re.lit 'P', Re.lit '<', Re.cls Re.isUpperAlpha 3]
  , Re.lits "TIPO" ++ [Re.ws0, Re.opt (fun c => c = '/'), Re.ws0] ++
      Re.lits "TYPE" ++ [Re.ws0, Re.lit 'P'] ]

/-- `DOCUMENT_MARKERS[DRIVERS_LICENSE]` (lines 46-54), in order. -/
def driversLicensePatterns : List (List Re.RItem) :=
  [ Re.lits "LICENCIA" ++ [Re.ws1] ++ Re.lits "DE" ++ [Re.ws1] ++ Re.lits "CONDUCIR"
  , Re.lits "DRIVER" ++ [Re.star] ++ Re.lits "LICENSE"
  , Re.lits "DRIVING" ++ [Re.ws1] ++ Re.lits "LICEN" ++
      [Re.cls (fun c => c = 'C' || c = 'S') 1] ++ Re.lits "E"
  , Re.lits "PERMIS" ++ [Re.ws1] ++ Re.lits "DE" ++ [Re.ws1] ++ Re.lits "CONDUIRE"
  , Re.lits "FÜHRERSCHEIN"
  , Re.lits "CATEGORÍA"
  , Re.lits "CATEGORY" ]

/-- The pre-compiled fast-path pattern `_MRZ_PASSPORT_PATTERN = P<[A-Z]{3}`
(line 64). -/
def mrzPassportPattern : List Re.RItem :=
  [Re.lit 'P', Re.lit '<', Re.cls Re.isUpperAlpha 3]

/-- `len(DOCUMENT_MARKERS[t])`. -/
def patternCount : DocumentType → Nat
  | .NATIONAL_ID => nationalIdPatterns.length
  | .PASSPORT => passportPatterns.length
  | .DRIVERS_LICENSE => driversLicensePatterns.length
  | .UNKNOWN => 0

/-- `detect_document_type` (services/document_detector.py lines 67-106).
Python's `max(scores, key=scores.get)` iterates the dict in insertion order
(NATIONAL_ID, PASSPORT, DRIVERS_LICENSE) and replaces the running maximum
only on a strictly greater score, which the nested ifs reproduce. -/
def detect_document_type (text : List Char) : DocumentType × ℚ :=
  let text_upper := Re.pyUpper text
  if Re.rsearch mrzPassportPattern text_upper then (DocumentType.PASSPORT, 1)
  else
    let nScore := Re.countMatches nationalIdPatterns text_upper
    let pScore := Re.countMatches passportPatterns text_upper
    let dScore := Re.countMatches driversLicensePatterns text_upper
    let best :=
      if nScore < pScore then
        (if pScore < dScore then (DocumentType.DRIVERS_LICENSE, dScore)
         else (DocumentType.PASSPORT, pScore))
      else
        (if nScore < dScore then (DocumentType.DRIVERS_LICENSE, dScore)
         else (DocumentType.NATIONAL_ID, nScore))
    if best.2 = 0 then (DocumentType.UNKNOWN, 0)
    else (best.1, (best.2 : ℚ) / (patternCount best.1 : ℚ))

/-- Spec-side reading of the fast-path condition: somewhere in the
upper-cased text stands `P`, `<` and then three letters. -/
def containsMrzPrefix (text : List Char) : Prop :=
  ∃ (l1 : List Char) (a b c : Char) (l2 : List Char),
    Re.pyUpper text = l1 ++ 'P' :: '<' :: a :: b :: c :: l2 ∧
    Re.isUpperAlpha a = true ∧ Re.isUpperAlpha b = true ∧ Re.isUpperAlpha c = true

/-- `ValidationResult` (services/validators.py lines 97-105); the
human-readable `error_message` text is omitted, no claim refers to it. -/
structure ValidationResult where
  is_valid : Bool
  error_code : Option String := none
  validator_used : Option String := none
  format_name : Option String := none
deriving DecidableEq, Repr

/-- `ValidatorInfo` (lines 86-94); the stdnum module object itself lives
behind the `moduleValidate` oracle. -/
structure ValidatorInfo where
  country_code : String
  module_name : String
  full_path : String
  display_name : String
deriving DecidableEq, Repr

/-- Outcome of `validator_info.module.validate(number)`: success, one of the
four mapped stdnum exceptions, or another `ValidationError`. -/
inductive StdnumOutcome where
  | ok
  | invalidLength
  | invalidChecksum
  | invalidFormat
  | invalidComponent
  | otherValidationError
deriving DecidableEq, Repr

/-- `validate_document_number` (services/validators.py lines 241-321).
`discover` stands for `discover_validator` (dynamic stdnum module lookup,
an external-library boundary), `moduleValidate` for the discovered module's
`validate` call.  `country_code = none` is Python `None`; `some ""` is the
other falsy string, both taken by `if not country_code`. -/
def validate_document_number (discover : String → Option ValidatorInfo)
    (moduleValidate : ValidatorInfo → String → StdnumOutcome)
    (number : String) (country_code : Option String) : ValidationResult :=
  if number = "" then
    { is_valid := false, error_code := some "missing_document_number" }
  else
    match country_code with
    | none => { is_valid := true }
    | some cc =>
      if cc = "" then { is_valid := true }
      else
        match discover cc with
        | none =>
            { is_valid := true, error_code := some "validation_unavailable_for_country" }
        | some vi =>
          match moduleValidate vi number with
          | .ok =>
              { is_valid := true, validator_used := some vi.full_path
                format_name := some vi.display_name }
          | .invalidLength =>
              { is_valid := false, error_code := some "invalid_document_length"
                validator_used := some vi.full_path, format_name := some vi.display_name }
          | .invalidChecksum =>
              { is_valid := false, error_code := some "invalid_document_checksum"
                validator_used := some vi.full_path, format_name := some vi.display_name }
          | .invalidFormat =>
              { is_valid := false, error_code := some "invalid_document_format"
                validator_used := some vi.full_path, format_name := some vi.display_name }
          | .invalidComponent =>
              { is_valid := false, error_code := some "invalid_document_component"
                validator_used := some vi.full_path, format_name := some vi.display_name }
          | .otherValidationError =>
              { is_valid := false, error_code := some "invalid_document_number"
                validator_used := some vi.full_path, format_name := some vi.display_name }

/-- Confidence-scoring constants (services/validators.py lines 415-426). -/
def TEXT_LENGTH_HIGH : Nat := 200

/-- `TEXT_LENGTH_MEDIUM = 100`. -/
def TEXT_LENGTH_MEDIUM : Nat := 100

/-- `TEXT_LENGTH_LOW = 50`. -/
def TEXT_LENGTH_LOW : Nat := 50

/-- `TEXT_QUALITY_MAX_SCORE = 0.3`. -/
def TEXT_QUALITY_MAX_SCORE : ℚ := 3/10

/-- `FIELD_EXTRACTION_MAX_SCORE = 0.4`. -/
def FIELD_EXTRACTION_MAX_SCORE : ℚ := 4/10

/-- `OCR_CONFIDENCE_MAX_SCORE = 0.3`. -/
def OCR_CONFIDENCE_MAX_SCORE : ℚ := 3/10

/-- `POINTS_PER_FIELD = 0.1`. -/
def POINTS_PER_FIELD : ℚ := 1/10

/-- `calculate_confidence` (services/validators.py lines 429-467). -/
def calculate_confidence (text_length : Nat) (fields_extracted : Nat)
    (ocr_avg_confidence : ℚ) : ℚ :=
  let score : ℚ :=
    if TEXT_LENGTH_HIGH < text_length then TEXT_QUALITY_MAX_SCORE
    else if TEXT_LENGTH_MEDIUM < text_length then TEXT_QUALITY_MAX_SCORE * (67/100)
    else if TEXT_LENGTH_LOW < text_length then TEXT_QUALITY_MAX_SCORE * (33/100)
    else 0
  let score := score + min FIELD_EXTRACTION_MAX_SCORE
    ((fields_extracted : ℚ) * POINTS_PER_FIELD)
  let score := score + ocr_avg_confidence * OCR_CONFIDENCE_MAX_SCORE
  min 1 score

end Ocr

namespace OcrApp

/-- `DocumentType` (app/document_detector.py lines 13-17). -/
inductive DocumentType where
  | PASSPORT
  | CEDULA
  | DRIVERS_LICENSE
  | UNKNOWN
deriving DecidableEq, Repr

/-- `DOCUMENT_MARKERS[CEDULA]` (lines 22-28), in order. -/
def cedulaPatterns : List (List Re.RItem) :=
  [ Re.lits "JUNTA" ++ [Re.ws1] ++ Re.lits "CENTRAL" ++ [Re.ws1] ++ Re.lits "ELECTORAL"
  , Re.lits "CÉDULA" ++ [Re.ws1] ++ Re.lits "DE" ++ [Re.ws1] ++ Re.lits "IDENTIDAD"
  , Re.lits "CEDULA" ++ [Re.ws1] ++ Re.lits "DE" ++ [Re.ws1] ++ Re.lits "IDENTIDAD"
  , Re.lits "JCE"
  , [Re.cls Re.isDigit 3, Re.opt Re.isDashOrSpace, Re.cls Re.isDigit 7,
     Re.opt Re.isDashOrSpace, Re.cls Re.isDigit 1] ]

/-- `DOCUMENT_MARKERS[PASSPORT]` (lines 29-35), in order; note `P<DOM`, not
the generic MRZ prefix, and there is no fast path in this legacy detector. -/
def passportPatterns : List (List Re.RItem) :=
  [ Re.lits "PASAPORTE"
  , Re.lits "PASSPORT"
  , Re.lits "P<DOM"
  , Re.lits "DIRECCIÓN" ++ [Re.ws1] ++ Re.lits "GENERAL" ++ [Re.ws1] ++
      Re.lits "DE" ++ [Re.ws1] ++ Re.lits "PASAPORTES"
  , Re.lits "TIPO" ++ [Re.ws0, Re.opt (fun c => c = '/'), Re.ws0] ++
      Re.lits "TYPE" ++ [Re.ws0, Re.lit 'P'] ]

/-- `DOCUMENT_MARKERS[DRIVERS_LICENSE]` (lines 36-42), in order. -/
def driversLicensePatterns : List (List Re.RItem) :=
  [ Re.lits "LICENCIA" ++ [Re.ws1] ++ Re.lits "DE" ++ [Re.ws1] ++ Re.lits "CONDUCIR"
  , Re.lits "DIRECCIÓN" ++ [Re.ws1] ++ Re.lits "GENERAL" ++ [Re.ws1] ++
      Re.lits "DE" ++ [Re.ws1] ++ Re.lits "TRÁNSITO"
  , Re.lits "INTRANT"
  , Re.lits "CATEGORÍA"
  , Re.lits "DRIVER" ++ [Re.star] ++ Re.lits "LICENSE" ]

/-- `len(DOCUMENT_MARKERS[t])`. -/
def patternCount : DocumentType → Nat
  | .CEDULA => cedulaPatterns.length
  | .PASSPORT => passportPatterns.length
  | .DRIVERS_LICENSE => driversLicensePatterns.length
  | .UNKNOWN => 0

/-- `detect_document_type` (app/document_detector.py lines 55-87): marker
scoring only (no MRZ fast path), dict order CEDULA, PASSPORT,
DRIVERS_LICENSE, confidence `min(1.0, score / max(1, total - 1))`. -/
def detect_document_type (text : List Char) : DocumentType × ℚ :=
  let text_upper := Re.pyUpper text
  let cScore := Re.countMatches cedulaPatterns text_upper
  let pScore := Re.countMatches passportPatterns text_upper
  let dScore := Re.countMatches driversLicensePatterns text_upper
  let best :=
    if cScore < pScore then
      (if pScore < dScore then (DocumentType.DRIVERS_LICENSE, dScore)
       else (DocumentType.PASSPORT, pScore))
    else
      (if cScore < dScore then (DocumentType.DRIVERS_LICENSE, dScore)
       else (DocumentType.CEDULA, cScore))
  if best.2 = 0 then (DocumentType.UNKNOWN, 0)
  else (best.1, min 1 ((best.2 : ℚ) / (max 1 (patternCount best.1 - 1) : ℚ)))

/-- `calculate_confidence` (app/validators.py lines 100-132); the
`document_recognized` parameter is accepted and never read, as in the
source. -/
def calculate_confidence (text_length : Nat) (fields_extracted : Nat)
    (ocr_avg_confidence : ℚ) (_document_recognized : Bool := true) : ℚ :=
  let score : ℚ :=
    if 200 < text_length then 3/10
    else if 100 < text_length then 2/10
    else if 50 < text_length then 1/10
    else 0
  let score := score + min (4/10) ((fields_extracted : ℚ) * (1/10))
  let score := score + ocr_avg_confidence * (3/10)
  min 1 score

end OcrApp

namespace Liveness

theorem sessionInv_mk (cs : List ChallengeType) : SessionInv cs (mkSession cs) := by
  refine ⟨rfl, rfl, Nat.zero_le _, ?_, ?_, fun _ => rfl⟩
  · constructor
    · intro h; simp [mkSession] at h
    · rintro ⟨hlen, hne⟩
      exact absurd (List.eq_nil_of_length_eq_zero (Nat.le_antisymm hlen (Nat.zero_le _))) hne
  · intro h; simp [mkSession] at h

theorem sessionInv_step (cs : List ChallengeType) (s : Session) (ct : String) (p : Bool)
    (h : SessionInv cs s) : SessionInv cs (s.complete_challenge ct p).1 := by
  obtain ⟨hch, hidx, hle, hcomp, hpass, hnotpass⟩ := h
  unfold Session.complete_challenge
  cases hget : s.challenges.get? s.current_index with
  | none => exact ⟨hch, hidx, hle, hcomp, hpass, hnotpass⟩
  | some expected =>
    dsimp only
    have hlt : s.current_index < s.challenges.length := by
      by_contra hcon
      rw [List.get?_eq_none.mpr (Nat.le_of_not_lt hcon)] at hget
      exact Option.noConfusion hget
    by_cases hne : ct ≠ expected.value
    · rw [if_pos hne]
      exact ⟨hch, hidx, hle, hcomp, hpass, hnotpass⟩
    · rw [if_neg hne]
      by_cases hdone : s.challenges.length ≤ s.current_index + 1
      · rw [if_pos hdone]
        refine ⟨hch, ?_, ?_, ?_, fun _ => rfl, fun hfalse => Bool.noConfusion hfalse⟩
        · simp [hidx]
        · exact Nat.succ_le_of_lt (hch ▸ hlt)
        · constructor
          · intro _
            refine ⟨by rw [hch] at hdone; exact hdone, ?_⟩
            intro hnil
            rw [hch, hnil] at hlt
            exact Nat.not_lt_zero _ hlt
          · intro _; rfl
      · rw [if_neg hdone]
        have hcompfalse : s.is_complete = false := by
          cases hc : s.is_complete with
          | false => rfl
          | true =>
            rcases hcomp.mp hc with ⟨hlen, _⟩
            rw [hch] at hlt
            exact absurd hlen (Nat.not_le_of_lt hlt)
        refine ⟨hch, ?_, ?_, ?_, ?_, fun _ => hnotpass hcompfalse⟩
        · simp [hidx]
        · rw [hch] at hdone
          exact Nat.le_of_lt (Nat.lt_of_not_le hdone)
        · simp only [hcompfalse]
          constructor
          · intro hfalse; exact Bool.noConfusion hfalse
          · rintro ⟨hlen, -⟩
            rw [hch] at hdone
            exact absurd hlen hdone
        · intro hfalse
          rw [hcompfalse] at hfalse
          exact Bool.noConfusion hfalse

theorem sessionInv_run (cs : List ChallengeType) (calls : List (String × Bool)) :
    SessionInv cs (runSession cs calls) := by
  unfold runSession
  have main : ∀ (l : List (String × Bool)) (s : Session), SessionInv cs s →
      SessionInv cs (l.foldl (fun s c => (s.complete_challenge c.1 c.2).1) s) := by
    intro l
    induction l with
    | nil => intro s hs; exact hs
    | cons c rest ih =>
      intro s hs
      exact ih _ (sessionInv_step cs s c.1 c.2 hs)
  exact main calls (mkSession cs) (sessionInv_mk cs)

end Liveness

/-- C4: for every session reached from a fresh `ChallengeSession` by any
sequence of `complete_challenge` calls, `is_passed` is never true before the
session is complete; once complete, `current_index = len(challenges)` and
`is_passed` is the conjunction of the `passed` flags of all logged completed
challenges; and as soon as an accepted call makes `current_index` reach
`len(challenges)` (possible only for a nonempty challenge list), the session
is complete. -/
theorem C4_session_pass_is_conjunction (cs : List Liveness.ChallengeType)
    (calls : List (String × Bool)) :
    ((Liveness.runSession cs calls).is_passed = true →
      (Liveness.runSession cs calls).is_complete = true) ∧
    ((Liveness.runSession cs calls).is_complete = true →
      (Liveness.runSession cs calls).current_index = cs.length ∧
      (Liveness.runSession cs calls).is_passed =
        (Liveness.runSession cs calls).completed_challenges.all (fun c => c.2)) ∧
    (cs ≠ [] → (Liveness.runSession cs calls).current_index = cs.length →
      (Liveness.runSession cs calls).is_complete = true) := by
  obtain ⟨hch, hidx, hle, hcomp, hpass, hnotpass⟩ := Liveness.sessionInv_run cs calls
  refine ⟨?_, ?_, ?_⟩
  · intro htrue
    cases hc : (Liveness.runSession cs calls).is_complete with
    | true => rfl
    | false => rw [hnotpass hc] at htrue; exact Bool.noConfusion htrue
  · intro hc
    rcases hcomp.mp hc with ⟨hlen, -⟩
    exact ⟨Nat.le_antisymm hle hlen, hpass hc⟩
  · intro hne hidxlen
    exact hcomp.mpr ⟨Nat.le_of_eq hidxlen.symm, hne⟩

/-- Witness for C4: a 2-challenge session completed with results
`[pass, fail]` has `is_passed = false`; with `[pass, pass]` it has
`is_passed = true`, is complete, and its index equals the length 2. -/
theorem C4_session_pass_is_conjunction_witness :
    (Liveness.runSession [Liveness.ChallengeType.blink, Liveness.ChallengeType.smile]
      [("blink", true), ("smile", false)]).is_passed = false ∧
    (Liveness.runSession [Liveness.ChallengeType.blink, Liveness.ChallengeType.smile]
      [("blink", true), ("smile", true)]).is_passed = true ∧
    (Liveness.runSession [Liveness.ChallengeType.blink, Liveness.ChallengeType.smile]
      [("blink", true), ("smile", true)]).is_complete = true ∧
    (Liveness.runSession [Liveness.ChallengeType.blink, Liveness.ChallengeType.smile]
      [("blink", true), ("smile", true)]).current_index = 2 := by
  refine ⟨by decide, by decide, ?_, ?_⟩
  · exact (C4_session_pass_is_conjunction
      [Liveness.ChallengeType.blink, Liveness.ChallengeType.smile]
      [("blink", true), ("smile", true)]).2.2 (by decide) (by decide)
  · exact ((C4_session_pass_is_conjunction
      [Liveness.ChallengeType.blink, Liveness.ChallengeType.smile]
      [("blink", true), ("smile", true)]).2.1 (by decide)).1

/-- C3: `complete_challenge` returns `success = false` and leaves the whole
session state unchanged both when the session is already complete
(`current_index ≥ len(challenges)`) and when the submitted challenge type
differs from `challenges[current_index]`. -/
theorem C3_reject_preserves_session (s : Liveness.Session) (ct : String) (p : Bool) :
    (s.challenges.length ≤ s.current_index →
      s.complete_challenge ct p =
        (s, { success := false, error := some "Session already complete" })) ∧
    (∀ expected, s.challenges.get? s.current_index = some expected → ct ≠ expected.value →
      (s.complete_challenge ct p).1 = s ∧ (s.complete_challenge ct p).2.success = false) := by
  constructor
  · intro hlen
    unfold Liveness.Session.complete_challenge
    rw [List.get?_eq_none.mpr hlen]
  · intro expected hget hne
    unfold Liveness.Session.complete_challenge
    rw [hget]
    dsimp only
    rw [if_pos hne]
    exact ⟨rfl, rfl⟩

/-- Witness for C3: for a session with `challenges = [blink, smile]` at
`current_index = 0`, `complete_challenge "smile" true` returns
`success = false` and leaves `current_index` at 0; a session that is already
past its last challenge rejects with "Session already complete". -/
theorem C3_reject_preserves_session_witness :
    ((Liveness.mkSession [Liveness.ChallengeType.blink, Liveness.ChallengeType.smile]).complete_challenge
        "smile" true).1 =
      Liveness.mkSession [Liveness.ChallengeType.blink, Liveness.ChallengeType.smile] ∧
    ((Liveness.mkSession [Liveness.ChallengeType.blink, Liveness.ChallengeType.smile]).complete_challenge
        "smile" true).2.success = false ∧
    ((Liveness.mkSession [Liveness.ChallengeType.blink, Liveness.ChallengeType.smile]).complete_challenge
        "smile" true).1.current_index = 0 ∧
    (Liveness.runSession [Liveness.ChallengeType.blink] [("blink", true)]).complete_challenge
        "blink" true =
      (Liveness.runSession [Liveness.ChallengeType.blink] [("blink", true)],
       { success := false, error := some "Session already complete" }) := by
  have h1 := (C3_reject_preserves_session
    (Liveness.mkSession [Liveness.ChallengeType.blink, Liveness.ChallengeType.smile])
    "smile" true).2 Liveness.ChallengeType.blink (by decide) (by decide)
  have h2 := (C3_reject_preserves_session
    (Liveness.runSession [Liveness.ChallengeType.blink] [("blink", true)])
    "blink" true).1 (by decide)
  exact ⟨h1.1, h1.2, by rw [h1.1]; rfl, h2⟩

theorem allChallengeTypes_nodup : Liveness.allChallengeTypes.Nodup := by decide

theorem clampNum_bounds (n : Int) : 2 ≤ Liveness.clampNum n ∧ Liveness.clampNum n ≤ 4 := by
  unfold Liveness.clampNum
  omega

theorem availableAfter_nodup (num : Nat) (exclude : List Liveness.ChallengeType) :
    (Liveness.availableAfter num exclude).Nodup := by
  unfold Liveness.availableAfter
  split
  · exact allChallengeTypes_nodup
  · exact allChallengeTypes_nodup.filter _

theorem clampNum_le_availableAfter_length (n : Int) (exclude : List Liveness.ChallengeType) :
    Liveness.clampNum n ≤ (Liveness.availableAfter (Liveness.clampNum n) exclude).length := by
  unfold Liveness.availableAfter
  split
  · have h4 : Liveness.allChallengeTypes.length = 4 := by decide
    rw [h4]
    exact (clampNum_bounds n).2
  · exact Nat.le_of_not_lt (by assumption)

theorem filter_ne_length_of_mem {l : List Liveness.ChallengeType} {a : Liveness.ChallengeType}
    (hn : l.Nodup) (hm : a ∈ l) :
    (l.filter (fun c => decide (c ≠ a))).length = l.length - 1 := by
  induction l with
  | nil => cases hm
  | cons b t ih =>
    rcases List.mem_cons.mp hm with hba | hat
    · have hdrop : decide (b ≠ a) = false := by simp [hba]
      have hnt : b ∉ t := (List.nodup_cons.mp hn).1
      have hall : t.filter (fun c => decide (c ≠ a)) = t := by
        apply List.filter_eq_self.mpr
        intro x hx
        simp only [decide_eq_true_eq]
        intro hxa
        exact hnt (hba ▸ hxa ▸ hx)
      simp only [List.filter_cons, hdrop, Bool.false_eq_true, if_false, hall, List.length_cons]
      omega
    · have hba : b ≠ a := by
        intro hb
        exact (List.nodup_cons.mp hn).1 (hb ▸ hat)
      have hkeep : decide (b ≠ a) = true := by simp [hba]
      have ht : 1 ≤ t.length := List.length_pos.mpr (List.ne_nil_of_mem hat)
      have ihv := ih (List.nodup_cons.mp hn).2 hat
      simp only [List.filter_cons, hkeep, if_true, List.length_cons, ihv]
      omega

/-- C2 counterexample: with `num_challenges = 2`,
`exclude_challenges = [turn_left, turn_right]` and `require_head_turn = true`,
the exclusion-reset guard does not fire (2 options remain for 2 slots), the
head-turn candidate list is empty, and `random.choice([])` raises
`IndexError`: construction fails, whatever the sampling outcome. -/
theorem C2_counterexample :
    Liveness.generateChallenges 2
      [Liveness.ChallengeType.turn_left, Liveness.ChallengeType.turn_right]
      true 0 (fun l k => l.take k) (fun l => l) = none := by decide

/-- C2 (amended): for every requested `num_challenges`, exclusion list,
`require_head_turn` flag and outcome of the random sampling, PROVIDED the
head-turn candidate pool is nonempty when `require_head_turn` is set (it is
empty exactly when both turn types are excluded while the clamped count is 2),
generation succeeds and the challenge sequence has length
`max(2, min(4, num_challenges))`, has no duplicate challenge types, and
contains `turn_left` or `turn_right` whenever `require_head_turn` is true. -/
theorem C2_generation_properties (num_challenges : Int)
    (exclude : List Liveness.ChallengeType) (require_head_turn : Bool) (pickIdx : Nat)
    (sampleFn : List Liveness.ChallengeType → Nat → List Liveness.ChallengeType)
    (shuffleFn : List Liveness.ChallengeType → List Liveness.ChallengeType)
    (hsample : ∀ l k, k ≤ l.length → l.Nodup →
      (sampleFn l k).length = k ∧ (sampleFn l k).Nodup ∧ ∀ x ∈ sampleFn l k, x ∈ l)
    (hshuffle : ∀ l, (shuffleFn l).Perm l)
    (hok : require_head_turn = true →
      Liveness.headTurns.filter
        (fun h => decide (h ∈ Liveness.availableAfter (Liveness.clampNum num_challenges) exclude))
        ≠ []) :
    ∃ cs,
      Liveness.generateChallenges num_challenges exclude require_head_turn pickIdx
        sampleFn shuffleFn = some cs ∧
      cs.length = Liveness.clampNum num_challenges ∧
      cs.Nodup ∧
      (require_head_turn = true →
        Liveness.ChallengeType.turn_left ∈ cs ∨ Liveness.ChallengeType.turn_right ∈ cs) := by
  have hnum2 := (clampNum_bounds num_challenges).1
  have havail_len := clampNum_le_availableAfter_length num_challenges exclude
  have havail_nd := availableAfter_nodup (Liveness.clampNum num_challenges) exclude
  cases hreq : require_head_turn with
  | false =>
    have hpos : 0 < Liveness.clampNum num_challenges := by omega
    have hminn :
        min (Liveness.clampNum num_challenges)
          (Liveness.availableAfter (Liveness.clampNum num_challenges) exclude).length
          = Liveness.clampNum num_challenges := Nat.min_eq_left havail_len
    obtain ⟨hslen, hsnd, hssub⟩ :=
      hsample (Liveness.availableAfter (Liveness.clampNum num_challenges) exclude)
        (Liveness.clampNum num_challenges) havail_len havail_nd
    refine ⟨shuffleFn (sampleFn
      (Liveness.availableAfter (Liveness.clampNum num_challenges) exclude)
      (Liveness.clampNum num_challenges)), ?_, ?_, ?_, ?_⟩
    · simp only [Liveness.generateChallenges, Bool.false_eq_true, if_false]
      rw [if_pos hpos, hminn]
    · rw [(hshuffle _).length_eq, hslen]
    · exact ((hshuffle _).nodup_iff).mpr hsnd
    · intro hfalse; exact Bool.noConfusion hfalse
  | true =>
    have hcand : Liveness.headTurns.filter
        (fun h => decide (h ∈ Liveness.availableAfter (Liveness.clampNum num_challenges) exclude))
        ≠ [] := hok hreq
    have hclen : 0 < (Liveness.headTurns.filter
        (fun h => decide (h ∈ Liveness.availableAfter (Liveness.clampNum num_challenges) exclude))).length :=
      List.length_pos.mpr hcand
    have hmod : pickIdx % (Liveness.headTurns.filter
        (fun h => decide (h ∈ Liveness.availableAfter (Liveness.clampNum num_challenges) exclude))).length
        < (Liveness.headTurns.filter
        (fun h => decide (h ∈ Liveness.availableAfter (Liveness.clampNum num_challenges) exclude))).length :=
      Nat.mod_lt _ hclen
    have hget := List.get?_eq_get hmod
    have htmem := List.get_mem _ _ hmod
    have htparts := List.mem_filter.mp htmem
    have htav : (Liveness.headTurns.filter
        (fun h => decide (h ∈ Liveness.availableAfter (Liveness.clampNum num_challenges) exclude))).get
          ⟨_, hmod⟩ ∈ Liveness.availableAfter (Liveness.clampNum num_challenges) exclude :=
      of_decide_eq_true htparts.2
    have hav2len := filter_ne_length_of_mem havail_nd htav
    have hav2nd := havail_nd.filter
      (fun c => decide (c ≠ (Liveness.headTurns.filter
        (fun h => decide (h ∈ Liveness.availableAfter (Liveness.clampNum num_challenges) exclude))).get
          ⟨_, hmod⟩))
    have hrem : Liveness.clampNum num_challenges - 1 ≤
        ((Liveness.availableAfter (Liveness.clampNum num_challenges) exclude).filter
          (fun c => decide (c ≠ (Liveness.headTurns.filter
            (fun h => decide (h ∈ Liveness.availableAfter (Liveness.clampNum num_challenges) exclude))).get
              ⟨_, hmod⟩))).length := by
      rw [hav2len]; omega
    have hpos : 0 < Liveness.clampNum num_challenges - 1 := by omega
    have hminr : min (Liveness.clampNum num_challenges - 1)
        ((Liveness.availableAfter (Liveness.clampNum num_challenges) exclude).filter
          (fun c => decide (c ≠ (Liveness.headTurns.filter
            (fun h => decide (h ∈ Liveness.availableAfter (Liveness.clampNum num_challenges) exclude))).get
              ⟨_, hmod⟩))).length = Liveness.clampNum num_challenges - 1 :=
      Nat.min_eq_left hrem
    obtain ⟨hslen, hsnd, hssub⟩ := hsample _ _ hrem hav2nd
    have htnotsel : (Liveness.headTurns.filter
        (fun h => decide (h ∈ Liveness.availableAfter (Liveness.clampNum num_challenges) exclude))).get
          ⟨_, hmod⟩ ∉ sampleFn
        ((Liveness.availableAfter (Liveness.clampNum num_challenges) exclude).filter
          (fun c => decide (c ≠ (Liveness.headTurns.filter
            (fun h => decide (h ∈ Liveness.availableAfter (Liveness.clampNum num_challenges) exclude))).get
              ⟨_, hmod⟩)))
        (Liveness.clampNum num_challenges - 1) := by
      intro hmem
      have hin := hssub _ hmem
      have := (List.mem_filter.mp hin).2
      simp at this
    refine ⟨shuffleFn ((Liveness.headTurns.filter
        (fun h => decide (h ∈ Liveness.availableAfter (Liveness.clampNum num_challenges) exclude))).get
          ⟨_, hmod⟩ :: sampleFn
        ((Liveness.availableAfter (Liveness.clampNum num_challenges) exclude).filter
          (fun c => decide (c ≠ (Liveness.headTurns.filter
            (fun h => decide (h ∈ Liveness.availableAfter (Liveness.clampNum num_challenges) exclude))).get
              ⟨_, hmod⟩)))
        (Liveness.clampNum num_challenges - 1)), ?_, ?_, ?_, ?_⟩
    · simp only [Liveness.generateChallenges, if_true]
      rw [hget]
      dsimp only
      rw [if_pos hpos, hminr]
    · rw [(hshuffle _).length_eq, List.length_cons, hslen]
      omega
    · exact ((hshuffle _).nodup_iff).mpr (List.nodup_cons.mpr ⟨htnotsel, hsnd⟩)
    · intro _
      have hmemfinal : (Liveness.headTurns.filter
          (fun h => decide (h ∈ Liveness.availableAfter (Liveness.clampNum num_challenges) exclude))).get
            ⟨_, hmod⟩ ∈ shuffleFn ((Liveness.headTurns.filter
          (fun h => decide (h ∈ Liveness.availableAfter (Liveness.clampNum num_challenges) exclude))).get
            ⟨_, hmod⟩ :: sampleFn
          ((Liveness.availableAfter (Liveness.clampNum num_challenges) exclude).filter
            (fun c => decide (c ≠ (Liveness.headTurns.filter
              (fun h => decide (h ∈ Liveness.availableAfter (Liveness.clampNum num_challenges) exclude))).get
                ⟨_, hmod⟩)))
          (Liveness.clampNum num_challenges - 1)) :=
        ((hshuffle _).mem_iff).mpr (List.mem_cons_self _ _)
      have hht : (Liveness.headTurns.filter
          (fun h => decide (h ∈ Liveness.availableAfter (Liveness.clampNum num_challenges) exclude))).get
            ⟨_, hmod⟩ ∈ Liveness.headTurns := htparts.1
      simp only [Liveness.headTurns, List.mem_cons, List.mem_singleton] at hht
      rcases hht with hl | hr
      · left; rw [← hl]; exact hmemfinal
      · rcases hr with hr | hfalse
        · right; rw [← hr]; exact hmemfinal
        · cases hfalse

theorem take_sample_contract (l : List Liveness.ChallengeType) (k : Nat)
    (hk : k ≤ l.length) (hn : l.Nodup) :
    (l.take k).length = k ∧ (l.take k).Nodup ∧ ∀ x ∈ l.take k, x ∈ l := by
  refine ⟨?_, ?_, ?_⟩
  · rw [List.length_take]
    exact Nat.min_eq_left hk
  · exact List.Nodup.sublist (List.take_sublist k l) hn
  · intro x hx
    exact List.take_subset k l hx

/-- Witness for C2 (amended): with `num_challenges = 2`, no exclusions,
`require_head_turn = true`, head-turn pick index 0 and prefix-taking sample /
identity shuffle outcomes, generation succeeds (concretely yielding
`[turn_left, smile]`, of length `clampNum 2 = 2`). -/
theorem C2_generation_properties_witness :
    Liveness.generateChallenges 2 [] true 0 (fun l k => l.take k) (fun l => l)
      = some [Liveness.ChallengeType.turn_left, Liveness.ChallengeType.smile] ∧
    Liveness.clampNum 2 = 2 ∧
    Liveness.generateChallenges 2 [] true 0 (fun l k => l.take k) (fun l => l) ≠ none := by
  refine ⟨by decide, by decide, ?_⟩
  obtain ⟨cs, hcs, -, -, -⟩ := C2_generation_properties 2 [] true 0
    (fun l k => l.take k) (fun l => l)
    (fun l k hk hn => take_sample_contract l k hk hn)
    (fun l => List.Perm.refl l)
    (fun _ => by decide)
  rw [hcs]
  simp

theorem blinkStep_detected (s : Liveness.BlinkState) (e : ℚ) :
    (Liveness.blinkProcessEar s e).2.blink_detected =
      (s.was_eye_closed && decide (Liveness.EAR_BLINK_THRESHOLD < e)) := by
  by_cases h : Liveness.EAR_BLINK_THRESHOLD < e
  · cases hw : s.was_eye_closed <;> simp [Liveness.blinkProcessEar, h, hw]
  · simp [Liveness.blinkProcessEar, h]

theorem blinkStep_count (s : Liveness.BlinkState) (f : Option ℚ) :
    (Liveness.blinkProcessFrame s f).1.blink_count =
      s.blink_count +
        (if (Liveness.blinkProcessFrame s f).2.blink_detected = true then 1 else 0) ∧
    (Liveness.blinkProcessFrame s f).2.blink_count =
      (Liveness.blinkProcessFrame s f).1.blink_count := by
  cases f with
  | none => simp [Liveness.blinkProcessFrame]
  | some e =>
    by_cases h : Liveness.EAR_BLINK_THRESHOLD < e
    · cases hw : s.was_eye_closed <;>
        simp [Liveness.blinkProcessFrame, Liveness.blinkProcessEar, h, hw]
    · simp [Liveness.blinkProcessFrame, Liveness.blinkProcessEar, h]

theorem blinkRun_length (es : List ℚ) : ∀ s : Liveness.BlinkState,
    (Liveness.blinkRun s es).2.length = es.length := by
  induction es with
  | nil => intro s; rfl
  | cons e rest ih =>
    intro s
    simp only [Liveness.blinkRun, List.length_cons]
    rw [ih]

theorem blinkRun_count (es : List ℚ) : ∀ s : Liveness.BlinkState,
    (Liveness.blinkRun s es).1.blink_count =
      s.blink_count + (Liveness.blinkRun s es).2.count true := by
  induction es with
  | nil => intro s; simp [Liveness.blinkRun]
  | cons e rest ih =>
    intro s
    simp only [Liveness.blinkRun]
    rw [ih]
    have hstep := (blinkStep_count s (some e)).1
    simp only [Liveness.blinkProcessFrame] at hstep
    rw [hstep]
    by_cases hflag : (Liveness.blinkProcessEar s e).2.blink_detected = true
    · rw [if_pos hflag, hflag]
      simp [List.count_cons]
      omega
    · rw [if_neg hflag]
      rw [Bool.not_eq_true] at hflag
      rw [hflag]
      simp [List.count_cons]

theorem blinkRun_append (es1 es2 : List ℚ) : ∀ s : Liveness.BlinkState,
    (Liveness.blinkRun s (es1 ++ es2)).1 =
      (Liveness.blinkRun (Liveness.blinkRun s es1).1 es2).1 := by
  induction es1 with
  | nil => intro s; rfl
  | cons e rest ih =>
    intro s
    simp only [List.cons_append, Liveness.blinkRun]
    exact ih _

theorem trailingClosed_append (es : List ℚ) (e : ℚ) :
    Liveness.trailingClosed (es ++ [e]) =
      if Liveness.closedFrame e = true then Liveness.trailingClosed es + 1 else 0 := by
  unfold Liveness.trailingClosed
  rw [List.reverse_append]
  simp only [List.reverse_cons, List.reverse_nil, List.nil_append, List.singleton_append,
    List.takeWhile]
  cases h : Liveness.closedFrame e <;> simp [h]

theorem blinkRun_state_inv (es : List ℚ) :
    (Liveness.blinkRun Liveness.initBlinkState es).1.eye_closed_frames =
      Liveness.trailingClosed es ∧
    (Liveness.blinkRun Liveness.initBlinkState es).1.was_eye_closed =
      decide (2 ≤ Liveness.trailingClosed es) := by
  induction es using List.reverseRecOn with
  | nil => constructor <;> rfl
  | append_singleton rest e ih =>
    obtain ⟨ihc, ihw⟩ := ih
    have hsplit := blinkRun_append rest [e] Liveness.initBlinkState
    have hone : (Liveness.blinkRun (Liveness.blinkRun Liveness.initBlinkState rest).1 [e]).1 =
        (Liveness.blinkProcessEar (Liveness.blinkRun Liveness.initBlinkState rest).1 e).1 := rfl
    rw [hsplit, hone, trailingClosed_append]
    unfold Liveness.blinkProcessEar
    by_cases h : Liveness.EAR_BLINK_THRESHOLD < e
    · have hcl : Liveness.closedFrame e = false := by
        simp [Liveness.closedFrame, h]
      rw [hcl]
      cases hw : (Liveness.blinkRun Liveness.initBlinkState rest).1.was_eye_closed <;>
        simp [h, hw]
    · have hcl : Liveness.closedFrame e = true := by
        simp [Liveness.closedFrame, h]
      rw [hcl]
      rw [if_neg h]
      simp only [if_true]
      constructor
      · simp [ihc]
      · simp only [ihw, ihc, Liveness.CONSECUTIVE_FRAMES_FOR_BLINK]
        by_cases h2 : 2 ≤ Liveness.trailingClosed rest
        · have h3 : 2 ≤ Liveness.trailingClosed rest + 1 := by omega
          simp [h2, h3]
        · simp only [decide_eq_false h2, Bool.false_or]

theorem takeWhile_closed_two (r : List ℚ) :
    (2 ≤ (r.takeWhile Liveness.closedFrame).length) ↔
      (2 ≤ r.length ∧ Liveness.closedFrame (r.getD 0 0) = true ∧
        Liveness.closedFrame (r.getD 1 0) = true) := by
  match r with
  | [] => simp [List.takeWhile_nil]
  | [a] =>
    cases h : Liveness.closedFrame a <;> simp [List.takeWhile_cons, h]
  | a :: b :: t =>
    cases ha : Liveness.closedFrame a <;> cases hb : Liveness.closedFrame b <;>
      simp [List.takeWhile_cons, ha, hb]

theorem reverse_take_getD (es : List ℚ) (i k : Nat) (hk : k < i) (hi : i ≤ es.length) :
    ((es.take i).reverse).getD k 0 = es.getD (i - 1 - k) 0 := by
  have hlen : (es.take i).length = i := by rw [List.length_take]; omega
  have hkrev : k < (es.take i).reverse.length := by
    rw [List.length_reverse, hlen]; omega
  have hidx : i - 1 - k < es.length := by omega
  rw [List.getD_eq_getElem _ _ hkrev, List.getD_eq_getElem _ _ hidx]
  rw [List.getElem_reverse]
  simp only [hlen]
  exact List.getElem_take _

theorem blinkRun_flag_at (es : List ℚ) : ∀ (s : Liveness.BlinkState) (i : Nat),
    i < es.length →
    (Liveness.blinkRun s es).2.getD i false =
      ((Liveness.blinkRun s (es.take i)).1.was_eye_closed &&
        decide (Liveness.EAR_BLINK_THRESHOLD < es.getD i 0)) := by
  induction es with
  | nil => intro s i h; cases h
  | cons e rest ih =>
    intro s i h
    cases i with
    | zero =>
      simp only [Liveness.blinkRun, List.take_zero, List.getD_cons_zero]
      exact blinkStep_detected s e
    | succ j =>
      have hj : j < rest.length := by simpa using h
      simp only [Liveness.blinkRun, List.take_succ_cons, List.getD_cons_succ]
      exact ih _ j hj

theorem closedFrame_iff (e : ℚ) :
    Liveness.closedFrame e = true ↔ e ≤ Liveness.EAR_BLINK_THRESHOLD := by
  unfold Liveness.closedFrame
  simp [not_lt]

theorem blink_latch_characterization (es : List ℚ) (i : Nat) (hi : i ≤ es.length) :
    ((Liveness.blinkRun Liveness.initBlinkState (es.take i)).1.was_eye_closed = true) ↔
      (2 ≤ i ∧ Liveness.closedFrame (es.getD (i-1) 0) = true ∧
        Liveness.closedFrame (es.getD (i-2) 0) = true) := by
  rw [(blinkRun_state_inv (es.take i)).2]
  rw [decide_eq_true_eq]
  unfold Liveness.trailingClosed
  rw [takeWhile_closed_two]
  rw [List.length_reverse]
  have hlen : (es.take i).length = i := by rw [List.length_take]; omega
  rw [hlen]
  constructor
  · rintro ⟨h2, hg0, hg1⟩
    have hr0 := reverse_take_getD es i 0 (by omega) hi
    rw [Nat.sub_zero] at hr0
    have hr1 := reverse_take_getD es i 1 (by omega) hi
    rw [show i - 1 - 1 = i - 2 from by omega] at hr1
    refine ⟨h2, ?_, ?_⟩
    · rw [← hr0]; exact hg0
    · rw [← hr1]; exact hg1
  · rintro ⟨h2, hg0, hg1⟩
    have hr0 := reverse_take_getD es i 0 (by omega) hi
    rw [Nat.sub_zero] at hr0
    have hr1 := reverse_take_getD es i 1 (by omega) hi
    rw [show i - 1 - 1 = i - 2 from by omega] at hr1
    refine ⟨h2, ?_, ?_⟩
    · rw [hr0]; exact hg0
    · rw [hr1]; exact hg1

/-- C5 counterexample: feeding the EAR sequence `[0.21, 0.21, 0.30]` makes
the detector count a blink even though no frame's EAR was strictly below the
0.21 threshold — the source latches on `not (avg_ear > 0.21)`, which treats
an EAR exactly equal to the threshold as closed. -/
theorem C5_blink_strictly_below_refuted :
    (Liveness.blinkRun Liveness.initBlinkState
      [21/100, 21/100, 30/100]).1.blink_count = 1 ∧
    ¬((21:ℚ)/100 < Liveness.EAR_BLINK_THRESHOLD) ∧
    ¬((30:ℚ)/100 < Liveness.EAR_BLINK_THRESHOLD) := by
  refine ⟨?_, by norm_num [Liveness.EAR_BLINK_THRESHOLD], ?_⟩
  · norm_num [Liveness.blinkRun, Liveness.blinkProcessEar, Liveness.EAR_BLINK_THRESHOLD,
      Liveness.CONSECUTIVE_FRAMES_FOR_BLINK, Liveness.initBlinkState]
  · norm_num [Liveness.EAR_BLINK_THRESHOLD]

/-- C5 (amended): a blink is reported on frame `i` exactly when frame `i`'s
EAR rises strictly above the 0.21 threshold after at least 2 consecutive
frames at or below it (the latched-closed state); and the final blink count
equals the number of frames whose result has `blink_detected = true`. -/
theorem C5_blink_debounce (es : List ℚ) (i : Nat) (h : i < es.length) :
    (((Liveness.blinkRun Liveness.initBlinkState es).2.getD i false = true) ↔
      (Liveness.EAR_BLINK_THRESHOLD < es.getD i 0 ∧ 2 ≤ i ∧
        es.getD (i-1) 0 ≤ Liveness.EAR_BLINK_THRESHOLD ∧
        es.getD (i-2) 0 ≤ Liveness.EAR_BLINK_THRESHOLD)) ∧
    (Liveness.blinkRun Liveness.initBlinkState es).1.blink_count =
      (Liveness.blinkRun Liveness.initBlinkState es).2.count true := by
  constructor
  · rw [blinkRun_flag_at es Liveness.initBlinkState i h, Bool.and_eq_true, decide_eq_true_eq,
      blink_latch_characterization es i (Nat.le_of_lt h), closedFrame_iff, closedFrame_iff]
    tauto
  · simpa [Liveness.initBlinkState] using blinkRun_count es Liveness.initBlinkState

/-- Witness for C5 (amended): `[0.30, 0.15, 0.10, 0.30]` yields exactly one
blink, reported on the 4th frame (index 3) with final count 1, while
`[0.30, 0.15, 0.30]` yields count 0. -/
theorem C5_blink_debounce_witness :
    (Liveness.blinkRun Liveness.initBlinkState
      [30/100, 15/100, 10/100, 30/100]).2.getD 3 false = true ∧
    (Liveness.blinkRun Liveness.initBlinkState
      [30/100, 15/100, 10/100, 30/100]).2 = [false, false, false, true] ∧
    (Liveness.blinkRun Liveness.initBlinkState
      [30/100, 15/100, 10/100, 30/100]).1.blink_count = 1 ∧
    (Liveness.blinkRun Liveness.initBlinkState [30/100, 15/100, 30/100]).1.blink_count = 0 := by
  refine ⟨?_, ?_, ?_, ?_⟩
  · exact ((C5_blink_debounce [30/100, 15/100, 10/100, 30/100] 3 (by decide)).1).mpr
      ⟨by norm_num [Liveness.EAR_BLINK_THRESHOLD], by norm_num,
       by norm_num [Liveness.EAR_BLINK_THRESHOLD], by norm_num [Liveness.EAR_BLINK_THRESHOLD]⟩
  · norm_num [Liveness.blinkRun, Liveness.blinkProcessEar, Liveness.EAR_BLINK_THRESHOLD,
      Liveness.CONSECUTIVE_FRAMES_FOR_BLINK, Liveness.initBlinkState]
  · norm_num [Liveness.blinkRun, Liveness.blinkProcessEar, Liveness.EAR_BLINK_THRESHOLD,
      Liveness.CONSECUTIVE_FRAMES_FOR_BLINK, Liveness.initBlinkState]
  · norm_num [Liveness.blinkRun, Liveness.blinkProcessEar, Liveness.EAR_BLINK_THRESHOLD,
      Liveness.CONSECUTIVE_FRAMES_FOR_BLINK, Liveness.initBlinkState]

/-- C10: per `process_frame` call (face frame or not), the blink counter
increases exactly by 1 on a frame reporting `blink_detected = true` and is
unchanged otherwise — hence it is non-decreasing and gains at most 1 per
frame; the reported count equals the post-frame state count; and `reset()`
restores the count to 0. -/
theorem C10_blink_count_step (s : Liveness.BlinkState) (f : Option ℚ) :
    (Liveness.blinkProcessFrame s f).1.blink_count =
      s.blink_count +
        (if (Liveness.blinkProcessFrame s f).2.blink_detected = true then 1 else 0) ∧
    s.blink_count ≤ (Liveness.blinkProcessFrame s f).1.blink_count ∧
    (Liveness.blinkProcessFrame s f).1.blink_count ≤ s.blink_count + 1 ∧
    (Liveness.blinkProcessFrame s f).2.blink_count =
      (Liveness.blinkProcessFrame s f).1.blink_count ∧
    (Liveness.blinkReset s).blink_count = 0 := by
  obtain ⟨h1, h2⟩ := blinkStep_count s f
  refine ⟨h1, ?_, ?_, h2, rfl⟩
  · rw [h1]; split <;> omega
  · rw [h1]; split <;> omega

theorem leftYaw_not_rightYaw (y : ℚ) (h : Liveness.leftYaw y = true) :
    Liveness.rightYaw y = false := by
  unfold Liveness.leftYaw at h
  unfold Liveness.rightYaw
  rw [decide_eq_true_eq] at h
  rw [decide_eq_false_iff_not]
  intro hcon
  have : Liveness.YAW_THRESHOLD < -Liveness.YAW_THRESHOLD := lt_trans h hcon
  norm_num [Liveness.YAW_THRESHOLD] at this

theorem confirmFrom_cons (p : ℚ → Bool) (st : Nat) (y : ℚ) (ys : List ℚ) :
    Liveness.confirmFrom p st (y :: ys) =
      (decide (2 ≤ (if p y then st + 1 else 0)) ||
        Liveness.confirmFrom p (if p y then st + 1 else 0) ys) := rfl

theorem hasAdjPair_cons2 (p : ℚ → Bool) (a b : ℚ) (rest : List ℚ) :
    Liveness.hasAdjPair p (a :: b :: rest) =
      ((p a && p b) || Liveness.hasAdjPair p (b :: rest)) := rfl

theorem confirmFrom_spec (p : ℚ → Bool) (l : List ℚ) :
    (Liveness.confirmFrom p 0 l = Liveness.hasAdjPair p l) ∧
    (∀ s, 1 ≤ s → Liveness.confirmFrom p s l =
      ((match l with | [] => false | y :: _ => p y) || Liveness.hasAdjPair p l)) := by
  induction l with
  | nil => exact ⟨rfl, fun s _ => rfl⟩
  | cons y ys ih =>
    have hnil : Liveness.hasAdjPair p [] = false := rfl
    have hone : ∀ a : ℚ, Liveness.hasAdjPair p [a] = false := fun a => rfl
    constructor
    · rw [confirmFrom_cons]
      cases hy : p y with
      | false =>
        rw [if_neg Bool.false_ne_true, ih.1]
        cases ys with
        | nil => simp [hnil, hone]
        | cons b r => rw [hasAdjPair_cons2, hy]; simp
      | true =>
        rw [if_pos rfl, ih.2 1 (le_refl 1)]
        cases ys with
        | nil => simp [hnil, hone]
        | cons b r => rw [hasAdjPair_cons2, hy]; simp
    · intro s hs
      rw [confirmFrom_cons]
      cases hy : p y with
      | false =>
        rw [if_neg Bool.false_ne_true, ih.1]
        cases ys with
        | nil => simp [hnil, hone, hy]
        | cons b r => rw [hasAdjPair_cons2, hy]; simp [hy]
      | true =>
        rw [if_pos rfl]
        have h2 : decide (2 ≤ s + 1) = true := decide_eq_true (by omega)
        rw [h2]
        cases ys with
        | nil => simp [hnil, hone, hy, Liveness.confirmFrom]
        | cons b r => rw [hasAdjPair_cons2, hy]; simp [hy]

theorem headRun_detected_left (fs : List (Option (ℚ × ℚ))) : ∀ s : Liveness.HeadPoseState,
    (Liveness.headRun s fs).1.turn_detected_left =
      (s.turn_detected_left ||
        Liveness.confirmFrom Liveness.leftYaw s.left_turn_frames (Liveness.faceYaws fs)) := by
  induction fs with
  | nil =>
    intro s
    simp [Liveness.headRun, Liveness.faceYaws, Liveness.confirmFrom]
  | cons f rest ih =>
    intro s
    cases f with
    | none =>
      show (Liveness.headRun s rest).1.turn_detected_left = _
      rw [ih s]
      simp [Liveness.faceYaws]
    | some yp =>
      show (Liveness.headRun (Liveness.headProcessPose s yp.1 yp.2).1 rest).1.turn_detected_left = _
      rw [ih _]
      have hface : Liveness.faceYaws (some yp :: rest) = yp.1 :: Liveness.faceYaws rest := by
        simp [Liveness.faceYaws]
      rw [hface, confirmFrom_cons]
      simp only [Liveness.headProcessPose, Liveness.leftYaw,
        Liveness.CONSECUTIVE_FRAMES_FOR_TURN]
      rw [Bool.or_assoc]

theorem headPose_right_frames (s : Liveness.HeadPoseState) (y p : ℚ) :
    (Liveness.headProcessPose s y p).1.right_turn_frames =
      (if Liveness.rightYaw y = true then s.right_turn_frames + 1 else 0) := by
  by_cases hl : Liveness.leftYaw y = true
  · have hr := leftYaw_not_rightYaw y hl
    unfold Liveness.leftYaw at hl
    unfold Liveness.rightYaw at hr
    simp only [Liveness.headProcessPose, Liveness.rightYaw]
    simp [hl, hr]
  · rw [Bool.not_eq_true] at hl
    unfold Liveness.leftYaw at hl
    simp only [Liveness.headProcessPose, Liveness.rightYaw]
    simp [hl]

theorem headRun_detected_right (fs : List (Option (ℚ × ℚ))) : ∀ s : Liveness.HeadPoseState,
    (Liveness.headRun s fs).1.turn_detected_right =
      (s.turn_detected_right ||
        Liveness.confirmFrom Liveness.rightYaw s.right_turn_frames (Liveness.faceYaws fs)) := by
  induction fs with
  | nil =>
    intro s
    simp [Liveness.headRun, Liveness.faceYaws, Liveness.confirmFrom]
  | cons f rest ih =>
    intro s
    cases f with
    | none =>
      show (Liveness.headRun s rest).1.turn_detected_right = _
      rw [ih s]
      simp [Liveness.faceYaws]
    | some yp =>
      show (Liveness.headRun (Liveness.headProcessPose s yp.1 yp.2).1 rest).1.turn_detected_right = _
      rw [ih _]
      have hface : Liveness.faceYaws (some yp :: rest) = yp.1 :: Liveness.faceYaws rest := by
        simp [Liveness.faceYaws]
      rw [hface, confirmFrom_cons]
      have hframes := headPose_right_frames s yp.1 yp.2
      have htdr : (Liveness.headProcessPose s yp.1 yp.2).1.turn_detected_right =
          (s.turn_detected_right ||
            decide (2 ≤ (if Liveness.rightYaw yp.1 = true then s.right_turn_frames + 1 else 0))) := by
        have h2 : (Liveness.headProcessPose s yp.1 yp.2).1.turn_detected_right =
            (s.turn_detected_right ||
              decide (Liveness.CONSECUTIVE_FRAMES_FOR_TURN ≤
                (Liveness.headProcessPose s yp.1 yp.2).1.right_turn_frames)) := rfl
        rw [h2, hframes]
        rfl
      rw [htdr, hframes, Bool.or_assoc]

theorem headRun_append (fs gs : List (Option (ℚ × ℚ))) : ∀ s : Liveness.HeadPoseState,
    (Liveness.headRun s (fs ++ gs)).1 =
      (Liveness.headRun (Liveness.headRun s fs).1 gs).1 := by
  induction fs with
  | nil => intro s; rfl
  | cons f rest ih =>
    intro s
    show (Liveness.headRun (Liveness.headProcessFrame s f).1 (rest ++ gs)).1 = _
    exact ih _

/-- C6: the head-pose turn state machine.  A no-face frame leaves the whole
tracker state (both consecutive-frame counters and both sticky flags)
unchanged while still reporting the sticky flags; on a face frame the active
turn direction increments its own counter and zeroes the other and a forward
frame zeroes both; `is_turning_left/right` are exactly the current frame's
instantaneous classification; a direction's sticky flag after any frame
sequence holds exactly when two adjacent face frames in that direction
occurred (i.e. its counter reached 2); and once set it stays set under any
continuation of the session. -/
theorem C6_turn_confirmation_machine (s : Liveness.HeadPoseState) (y p : ℚ)
    (fs gs : List (Option (ℚ × ℚ))) :
    ((Liveness.headProcessFrame s none).1 = s ∧
     (Liveness.headProcessFrame s none).2.left_turn_completed = s.turn_detected_left ∧
     (Liveness.headProcessFrame s none).2.right_turn_completed = s.turn_detected_right) ∧
    ((Liveness.headProcessPose s y p).2.is_turning_left = Liveness.leftYaw y ∧
     (Liveness.headProcessPose s y p).2.is_turning_right = Liveness.rightYaw y) ∧
    ((Liveness.leftYaw y = true →
        (Liveness.headProcessPose s y p).1.left_turn_frames = s.left_turn_frames + 1 ∧
        (Liveness.headProcessPose s y p).1.right_turn_frames = 0) ∧
     (Liveness.rightYaw y = true →
        (Liveness.headProcessPose s y p).1.right_turn_frames = s.right_turn_frames + 1 ∧
        (Liveness.headProcessPose s y p).1.left_turn_frames = 0) ∧
     (Liveness.leftYaw y = false → Liveness.rightYaw y = false →
        (Liveness.headProcessPose s y p).1.left_turn_frames = 0 ∧
        (Liveness.headProcessPose s y p).1.right_turn_frames = 0)) ∧
    ((Liveness.headRun Liveness.initHeadPoseState fs).1.turn_detected_left =
        Liveness.hasAdjPair Liveness.leftYaw (Liveness.faceYaws fs) ∧
     (Liveness.headRun Liveness.initHeadPoseState fs).1.turn_detected_right =
        Liveness.hasAdjPair Liveness.rightYaw (Liveness.faceYaws fs)) ∧
    ((Liveness.headRun Liveness.initHeadPoseState fs).1.turn_detected_left = true →
      (Liveness.headRun Liveness.initHeadPoseState (fs ++ gs)).1.turn_detected_left = true) ∧
    ((Liveness.headRun Liveness.initHeadPoseState fs).1.turn_detected_right = true →
      (Liveness.headRun Liveness.initHeadPoseState (fs ++ gs)).1.turn_detected_right = true) := by
  refine ⟨⟨rfl, rfl, rfl⟩, ⟨rfl, rfl⟩, ⟨?_, ?_, ?_⟩, ⟨?_, ?_⟩, ?_, ?_⟩
  · intro hl
    unfold Liveness.leftYaw at hl
    constructor
    · simp only [Liveness.headProcessPose]
      simp [hl]
    · simp only [Liveness.headProcessPose]
      simp [hl]
  · intro hr
    have hl : Liveness.leftYaw y = false := by
      cases hcase : Liveness.leftYaw y with
      | false => rfl
      | true => rw [leftYaw_not_rightYaw y hcase] at hr; exact Bool.noConfusion hr
    unfold Liveness.rightYaw at hr
    unfold Liveness.leftYaw at hl
    constructor
    · simp only [Liveness.headProcessPose]
      simp [hl, hr]
    · simp only [Liveness.headProcessPose]
      simp [hl, hr]
  · intro hl hr
    unfold Liveness.leftYaw at hl
    unfold Liveness.rightYaw at hr
    constructor
    · simp only [Liveness.headProcessPose]
      simp [hl]
    · simp only [Liveness.headProcessPose]
      simp [hl, hr]
  · rw [headRun_detected_left fs Liveness.initHeadPoseState]
    simp only [Liveness.initHeadPoseState, Bool.false_or]
    exact (confirmFrom_spec Liveness.leftYaw (Liveness.faceYaws fs)).1
  · rw [headRun_detected_right fs Liveness.initHeadPoseState]
    simp only [Liveness.initHeadPoseState, Bool.false_or]
    exact (confirmFrom_spec Liveness.rightYaw (Liveness.faceYaws fs)).1
  · intro hdone
    rw [headRun_append fs gs Liveness.initHeadPoseState,
      headRun_detected_left gs _, hdone]
    rfl
  · intro hdone
    rw [headRun_append fs gs Liveness.initHeadPoseState,
      headRun_detected_right gs _, hdone]
    rfl

/-- Witness for C6: yaw sequence `[0.2, 0.2, 0.0, 0.0]` (all face frames)
confirms a left turn after the first two frames, `left_turn_completed` is
still true on frames 3 and 4 (indices 2 and 3) although `is_turning_left` is
false there, and the stickiness conjunct of the machine theorem transports
the confirmation across the appended tail. -/
theorem C6_turn_confirmation_machine_witness :
    ((Liveness.headRun Liveness.initHeadPoseState
        [some ((2:ℚ)/10, 0), some ((2:ℚ)/10, 0)]).1.turn_detected_left = true) ∧
    ((Liveness.headRun Liveness.initHeadPoseState
        [some ((2:ℚ)/10, 0), some ((2:ℚ)/10, 0), some (0, 0), some (0, 0)]).1.turn_detected_left
      = true) ∧
    (((Liveness.headRun Liveness.initHeadPoseState
        [some ((2:ℚ)/10, 0), some ((2:ℚ)/10, 0), some (0, 0), some (0, 0)]).2.getD 2
          { yaw := 0, direction := "forward", is_turning_left := false
            is_turning_right := false, left_turn_completed := false
            right_turn_completed := false, face_detected := false }).left_turn_completed
      = true) ∧
    (((Liveness.headRun Liveness.initHeadPoseState
        [some ((2:ℚ)/10, 0), some ((2:ℚ)/10, 0), some (0, 0), some (0, 0)]).2.getD 2
          { yaw := 0, direction := "forward", is_turning_left := false
            is_turning_right := false, left_turn_completed := false
            right_turn_completed := false, face_detected := false }).is_turning_left
      = false) ∧
    (((Liveness.headRun Liveness.initHeadPoseState
        [some ((2:ℚ)/10, 0), some ((2:ℚ)/10, 0), some (0, 0), some (0, 0)]).2.getD 3
          { yaw := 0, direction := "forward", is_turning_left := false
            is_turning_right := false, left_turn_completed := false
            right_turn_completed := false, face_detected := false }).left_turn_completed
      = true) := by
  have h2 : (Liveness.headRun Liveness.initHeadPoseState
      [some ((2:ℚ)/10, 0), some ((2:ℚ)/10, 0)]).1.turn_detected_left = true := by
    norm_num [Liveness.headRun, Liveness.headProcessFrame, Liveness.headProcessPose,
      Liveness.YAW_THRESHOLD, Liveness.CONSECUTIVE_FRAMES_FOR_TURN,
      Liveness.initHeadPoseState]
  have hstick := (C6_turn_confirmation_machine Liveness.initHeadPoseState 0 0
    [some ((2:ℚ)/10, 0), some ((2:ℚ)/10, 0)] [some (0, 0), some (0, 0)]).2.2.2.2.1 h2
  refine ⟨h2, hstick, ?_, ?_, ?_⟩ <;>
    norm_num [Liveness.headRun, Liveness.headProcessFrame, Liveness.headProcessPose,
      Liveness.YAW_THRESHOLD, Liveness.CONSECUTIVE_FRAMES_FOR_TURN,
      Liveness.initHeadPoseState]

/-- C1: in `validate_multi_challenge_batch` the head-turn pass conditions are
swapped relative to the camera-mirrored sign convention that head_pose.py
documents and `detect_head_turn` implements (positive yaw = user turned
left).  At yaw 0.3 — a left turn per the documented convention, as
`detect_head_turn("left")` confirms — the batch validator fails a turn_left
entry, and it passes one at yaw −0.3; symmetrically for turn_right. -/
theorem C1_batch_turn_sign_swapped :
    Liveness.batchTurnPassed Liveness.ChallengeType.turn_left (3/10) = false ∧
    Liveness.detectHeadTurnCheck "left" (3/10) (15/100) = true ∧
    Liveness.batchTurnPassed Liveness.ChallengeType.turn_left (-(3/10)) = true ∧
    Liveness.batchTurnPassed Liveness.ChallengeType.turn_right (-(3/10)) = false ∧
    Liveness.detectHeadTurnCheck "right" (-(3/10)) (15/100) = true ∧
    Liveness.batchTurnPassed Liveness.ChallengeType.turn_right (3/10) = true := by
  refine ⟨?_, ?_, ?_, ?_, ?_, ?_⟩ <;>
    norm_num [Liveness.batchTurnPassed, Liveness.detectHeadTurnCheck] <;> decide

theorem matchHereF_mono (f1 : Nat) : ∀ (f2 : Nat) (pat : List Re.RItem) (s : List Char),
    f1 ≤ f2 → Re.matchHereF f1 pat s = true → Re.matchHereF f2 pat s = true := by
  induction f1 with
  | zero =>
    intro f2 pat s _ hm
    exact absurd hm (by simp [Re.matchHereF])
  | succ g ih =>
    intro f2 pat s hle hm
    obtain ⟨h, rfl⟩ : ∃ h, f2 = h + 1 := ⟨f2 - 1, by omega⟩
    have hgh : g ≤ h := by omega
    cases pat with
    | nil => simp [Re.matchHereF]
    | cons item rest =>
      obtain ⟨p, lo, hi⟩ := item
      cases lo with
      | zero =>
        match hi, s with
        | some 0, s =>
          simp only [Re.matchHereF] at hm ⊢
          exact ih h rest s hgh hm
        | none, [] =>
          simp only [Re.matchHereF] at hm ⊢
          exact ih h rest [] hgh hm
        | some (n+1), [] =>
          simp only [Re.matchHereF] at hm ⊢
          exact ih h rest [] hgh hm
        | none, c :: s =>
          simp only [Re.matchHereF, Bool.or_eq_true, Bool.and_eq_true] at hm ⊢
          rcases hm with hm | ⟨hp, hm⟩
          · exact Or.inl (ih h rest (c :: s) hgh hm)
          · exact Or.inr ⟨hp, ih h _ s hgh hm⟩
        | some (n+1), c :: s =>
          simp only [Re.matchHereF, Bool.or_eq_true, Bool.and_eq_true] at hm ⊢
          rcases hm with hm | ⟨hp, hm⟩
          · exact Or.inl (ih h rest (c :: s) hgh hm)
          · exact Or.inr ⟨hp, ih h _ s hgh hm⟩
      | succ lo =>
        cases s with
        | nil => simp [Re.matchHereF] at hm
        | cons c s =>
          simp only [Re.matchHereF, Bool.and_eq_true] at hm ⊢
          exact ⟨hm.1, ih h _ s hgh hm.2⟩

theorem matchHereF_mrz_nine (a b c : Char) (rest : List Char)
    (ha : Re.isUpperAlpha a = true) (hb : Re.isUpperAlpha b = true)
    (hc : Re.isUpperAlpha c = true) :
    Re.matchHereF 9 Ocr.mrzPassportPattern ('P' :: '<' :: a :: b :: c :: rest) = true := by
  simp [Re.matchHereF, Ocr.mrzPassportPattern, Re.lit, Re.cls, Re.decBound, ha, hb, hc]

theorem matchHere_mrz (a b c : Char) (rest : List Char)
    (ha : Re.isUpperAlpha a = true) (hb : Re.isUpperAlpha b = true)
    (hc : Re.isUpperAlpha c = true) :
    Re.matchHere Ocr.mrzPassportPattern ('P' :: '<' :: a :: b :: c :: rest) = true := by
  unfold Re.matchHere
  apply matchHereF_mono 9 _ _ _ _ (matchHereF_mrz_nine a b c rest ha hb hc)
  simp [Ocr.mrzPassportPattern]
  omega

theorem rsearch_suffix (pat : List Re.RItem) (t : List Char)
    (hm : Re.matchHere pat t = true) :
    ∀ l1 : List Char, Re.rsearch pat (l1 ++ t) = true := by
  intro l1
  induction l1 with
  | nil =>
    cases t with
    | nil => exact hm
    | cons c s =>
      show (Re.matchHere pat (c :: s) || Re.rsearch pat s) = true
      rw [hm, Bool.true_or]
  | cons d l1 ih =>
    show (Re.matchHere pat (d :: (l1 ++ t)) || Re.rsearch pat (l1 ++ t)) = true
    rw [ih, Bool.or_true]

/-- C7 counterexample: the legacy `app/document_detector.py` classifier has
no MRZ fast path; the text "CEDULA DE IDENTIDAD P<USA" contains the MRZ
passport prefix pattern (second conjunct, via the same matcher the service
classifier uses), yet the legacy classifier returns (CEDULA, 0.25), not
(PASSPORT, 1.0). -/
theorem C7_app_detector_no_fast_path :
    OcrApp.detect_document_type ("CEDULA DE IDENTIDAD P<USA".toList) =
      (OcrApp.DocumentType.CEDULA, 1/4) ∧
    Re.rsearch Ocr.mrzPassportPattern
      (Re.pyUpper ("CEDULA DE IDENTIDAD P<USA".toList)) = true := by
  constructor
  · have hc : Re.countMatches OcrApp.cedulaPatterns
        (Re.pyUpper ("CEDULA DE IDENTIDAD P<USA".toList)) = 1 := by decide
    have hp : Re.countMatches OcrApp.passportPatterns
        (Re.pyUpper ("CEDULA DE IDENTIDAD P<USA".toList)) = 0 := by decide
    have hd : Re.countMatches OcrApp.driversLicensePatterns
        (Re.pyUpper ("CEDULA DE IDENTIDAD P<USA".toList)) = 0 := by decide
    simp only [OcrApp.detect_document_type, hc, hp, hd, OcrApp.patternCount]
    norm_num [OcrApp.cedulaPatterns]
  · decide

/-- C7 (amended): in the `ocr_service` classifier, every input text
containing the MRZ passport prefix (`P<` then 3 letters, after upper-casing)
is classified `(PASSPORT, 1.0)` by the fast path, bypassing marker scoring;
the legacy `app/` classifier lacks this fast path (see the counterexample). -/
theorem C7_mrz_fast_path (text : List Char) (h : Ocr.containsMrzPrefix text) :
    Ocr.detect_document_type text = (Ocr.DocumentType.PASSPORT, 1) := by
  obtain ⟨l1, a, b, c, l2, heq, ha, hb, hc⟩ := h
  have hsearch : Re.rsearch Ocr.mrzPassportPattern (Re.pyUpper text) = true := by
    rw [heq]
    exact rsearch_suffix _ _ (matchHere_mrz a b c l2 ha hb hc) l1
  simp only [Ocr.detect_document_type, hsearch]
  rfl

/-- Witness for C7 (amended): the text "CEDULA DE IDENTIDAD P<USA" contains
the MRZ prefix and the service classifier returns (PASSPORT, 1.0), not
NATIONAL_ID. -/
theorem C7_mrz_fast_path_witness :
    Ocr.detect_document_type ("CEDULA DE IDENTIDAD P<USA".toList) =
      (Ocr.DocumentType.PASSPORT, 1) := by
  apply C7_mrz_fast_path
  refine ⟨"CEDULA DE IDENTIDAD ".toList, 'U', 'S', 'A', [], ?_, ?_, ?_, ?_⟩ <;> decide

/-- C8: for a non-empty document number, a missing (or empty) country code
yields `is_valid = true` with no error code, and a present country code with
no discoverable validator module yields `is_valid = true` with the soft
warning code `validation_unavailable_for_country` — neither is a hard
rejection, whatever the discovery and module oracles do. -/
theorem C8_validator_soft_paths (discover : String → Option Ocr.ValidatorInfo)
    (moduleValidate : Ocr.ValidatorInfo → String → Ocr.StdnumOutcome)
    (number : String) (country_code : Option String) (hnum : number ≠ "") :
    ((country_code = none ∨ country_code = some "") →
      Ocr.validate_document_number discover moduleValidate number country_code =
        { is_valid := true }) ∧
    (∀ c, country_code = some c → c ≠ "" → discover c = none →
      Ocr.validate_document_number discover moduleValidate number country_code =
        { is_valid := true, error_code := some "validation_unavailable_for_country" }) := by
  constructor
  · rintro (hcc | hcc) <;> subst hcc <;>
      simp [Ocr.validate_document_number, hnum]
  · intro c hcc hc hdisc
    subst hcc
    simp [Ocr.validate_document_number, hnum, hc, hdisc]

/-- Witness for C8: `validate_document_number("12345678", "ZWE")` with a
discovery oracle that finds no module passes with the warning code, and the
same number with no country code passes clean. -/
theorem C8_validator_soft_paths_witness :
    Ocr.validate_document_number (fun _ => none) (fun _ _ => Ocr.StdnumOutcome.ok)
      "12345678" (some "ZWE") =
      { is_valid := true, error_code := some "validation_unavailable_for_country" } ∧
    Ocr.validate_document_number (fun _ => none) (fun _ _ => Ocr.StdnumOutcome.ok)
      "12345678" none = { is_valid := true } := by
  constructor
  · exact (C8_validator_soft_paths (fun _ => none) (fun _ _ => Ocr.StdnumOutcome.ok)
      "12345678" (some "ZWE") (by decide)).2 "ZWE" rfl (by decide) rfl
  · exact (C8_validator_soft_paths (fun _ => none) (fun _ _ => Ocr.StdnumOutcome.ok)
      "12345678" none (by decide)).1 (Or.inl rfl)

theorem tier3_mono (v1 v2 v3 : ℚ) (h0 : 0 ≤ v1) (h12 : v1 ≤ v2) (h23 : v2 ≤ v3)
    (t t2 : Nat) (h : t ≤ t2) :
    (if 200 < t then v3 else if 100 < t then v2 else if 50 < t then v1 else 0) ≤
      (if 200 < t2 then v3 else if 100 < t2 then v2 else if 50 < t2 then v1 else 0) := by
  split_ifs <;> first | omega | linarith

theorem tier3_nonneg (v1 v2 v3 : ℚ) (h1 : 0 ≤ v1) (h2 : 0 ≤ v2) (h3 : 0 ≤ v3) (t : Nat) :
    0 ≤ (if 200 < t then v3 else if 100 < t then v2 else if 50 < t then v1 else 0) := by
  split_ifs <;> linarith

theorem tier3_le (v1 v2 v3 vmax : ℚ) (h1 : v1 ≤ vmax) (h2 : v2 ≤ vmax) (h3 : v3 ≤ vmax)
    (h0 : 0 ≤ vmax) (t : Nat) :
    (if 200 < t then v3 else if 100 < t then v2 else if 50 < t then v1 else 0) ≤ vmax := by
  split_ifs <;> linarith

/-- C9: both `calculate_confidence` implementations are monotonically
non-decreasing in each of text length, fields extracted and mean OCR
confidence separately, and their result lies in [0, 1] for every
non-negative input combination. -/
theorem C9_confidence_monotone_bounds (t t2 f f2 : Nat) (o o2 : ℚ) :
    (t ≤ t2 → Ocr.calculate_confidence t f o ≤ Ocr.calculate_confidence t2 f o) ∧
    (f ≤ f2 → Ocr.calculate_confidence t f o ≤ Ocr.calculate_confidence t f2 o) ∧
    (o ≤ o2 → Ocr.calculate_confidence t f o ≤ Ocr.calculate_confidence t f o2) ∧
    (0 ≤ o → 0 ≤ Ocr.calculate_confidence t f o ∧ Ocr.calculate_confidence t f o ≤ 1) ∧
    (t ≤ t2 → OcrApp.calculate_confidence t f o ≤ OcrApp.calculate_confidence t2 f o) ∧
    (f ≤ f2 → OcrApp.calculate_confidence t f o ≤ OcrApp.calculate_confidence t f2 o) ∧
    (o ≤ o2 → OcrApp.calculate_confidence t f o ≤ OcrApp.calculate_confidence t f o2) ∧
    (0 ≤ o →
      0 ≤ OcrApp.calculate_confidence t f o ∧ OcrApp.calculate_confidence t f o ≤ 1) := by
  refine ⟨?_, ?_, ?_, ?_, ?_, ?_, ?_, ?_⟩
  · intro ht
    simp only [Ocr.calculate_confidence, Ocr.TEXT_LENGTH_HIGH, Ocr.TEXT_LENGTH_MEDIUM,
      Ocr.TEXT_LENGTH_LOW, Ocr.TEXT_QUALITY_MAX_SCORE, Ocr.FIELD_EXTRACTION_MAX_SCORE,
      Ocr.OCR_CONFIDENCE_MAX_SCORE, Ocr.POINTS_PER_FIELD]
    exact min_le_min (le_refl 1) (add_le_add_right (add_le_add_right
      (tier3_mono _ _ _ (by norm_num) (by norm_num) (by norm_num) t t2 ht) _) _)
  · intro hf
    simp only [Ocr.calculate_confidence, Ocr.TEXT_LENGTH_HIGH, Ocr.TEXT_LENGTH_MEDIUM,
      Ocr.TEXT_LENGTH_LOW, Ocr.TEXT_QUALITY_MAX_SCORE, Ocr.FIELD_EXTRACTION_MAX_SCORE,
      Ocr.OCR_CONFIDENCE_MAX_SCORE, Ocr.POINTS_PER_FIELD]
    refine min_le_min (le_refl 1) (add_le_add_right (add_le_add_left
      (min_le_min (le_refl _) (mul_le_mul_of_nonneg_right ?_ (by norm_num))) _) _)
    exact_mod_cast hf
  · intro ho
    simp only [Ocr.calculate_confidence, Ocr.TEXT_LENGTH_HIGH, Ocr.TEXT_LENGTH_MEDIUM,
      Ocr.TEXT_LENGTH_LOW, Ocr.TEXT_QUALITY_MAX_SCORE, Ocr.FIELD_EXTRACTION_MAX_SCORE,
      Ocr.OCR_CONFIDENCE_MAX_SCORE, Ocr.POINTS_PER_FIELD]
    exact min_le_min (le_refl 1)
      (add_le_add_left (mul_le_mul_of_nonneg_right ho (by norm_num)) _)
  · intro ho
    simp only [Ocr.calculate_confidence, Ocr.TEXT_LENGTH_HIGH, Ocr.TEXT_LENGTH_MEDIUM,
      Ocr.TEXT_LENGTH_LOW, Ocr.TEXT_QUALITY_MAX_SCORE, Ocr.FIELD_EXTRACTION_MAX_SCORE,
      Ocr.OCR_CONFIDENCE_MAX_SCORE, Ocr.POINTS_PER_FIELD]
    constructor
    · refine le_min (by norm_num) (add_nonneg (add_nonneg
        (tier3_nonneg _ _ _ (by norm_num) (by norm_num) (by norm_num) t)
        (le_min (by norm_num) (mul_nonneg (Nat.cast_nonneg f) (by norm_num))))
        (mul_nonneg ho (by norm_num)))
    · exact min_le_left _ _
  · intro ht
    simp only [OcrApp.calculate_confidence]
    exact min_le_min (le_refl 1) (add_le_add_right (add_le_add_right
      (tier3_mono _ _ _ (by norm_num) (by norm_num) (by norm_num) t t2 ht) _) _)
  · intro hf
    simp only [OcrApp.calculate_confidence]
    refine min_le_min (le_refl 1) (add_le_add_right (add_le_add_left
      (min_le_min (le_refl _) (mul_le_mul_of_nonneg_right ?_ (by norm_num))) _) _)
    exact_mod_cast hf
  · intro ho
    simp only [OcrApp.calculate_confidence]
    exact min_le_min (le_refl 1)
      (add_le_add_left (mul_le_mul_of_nonneg_right ho (by norm_num)) _)
  · intro ho
    simp only [OcrApp.calculate_confidence]
    constructor
    · refine le_min (by norm_num) (add_nonneg (add_nonneg
        (tier3_nonneg _ _ _ (by norm_num) (by norm_num) (by norm_num) t)
        (le_min (by norm_num) (mul_nonneg (Nat.cast_nonneg f) (by norm_num))))
        (mul_nonneg ho (by norm_num)))
    · exact min_le_left _ _

/-- Witness for C9: at the extreme inputs text_length = 100000,
fields_extracted = 100 and ocr_avg_confidence = 5.0 both scorers clamp to
exactly 1, lie in [0,1], and a monotonicity instance holds concretely. -/
theorem C9_confidence_monotone_bounds_witness :
    Ocr.calculate_confidence 100000 100 5 = 1 ∧
    OcrApp.calculate_confidence 100000 100 5 = 1 ∧
    (0 ≤ Ocr.calculate_confidence 100000 100 5 ∧
      Ocr.calculate_confidence 100000 100 5 ≤ 1) ∧
    Ocr.calculate_confidence 100 4 (1/2) ≤ Ocr.calculate_confidence 100000 4 (1/2) := by
  refine ⟨?_, ?_, ?_, ?_⟩
  · norm_num [Ocr.calculate_confidence, Ocr.TEXT_LENGTH_HIGH, Ocr.TEXT_LENGTH_MEDIUM,
      Ocr.TEXT_LENGTH_LOW, Ocr.TEXT_QUALITY_MAX_SCORE, Ocr.FIELD_EXTRACTION_MAX_SCORE,
      Ocr.OCR_CONFIDENCE_MAX_SCORE, Ocr.POINTS_PER_FIELD]
  · norm_num [OcrApp.calculate_confidence]
  · exact (C9_confidence_monotone_bounds 100000 100000 100 100 5 5).2.2.2.1 (by norm_num)
  · exact (C9_confidence_monotone_bounds 100 100000 4 4 (1/2) (1/2)).1 (by norm_num)
